import Mathlib

/-
Verification development for the oxsci-mcp-scaffold project generator.

The subject code is the scaffolding workflow shared by `install.py` and
`setup.py`: name normalization and validation, the environment probe, the
template-materialization steps (directory creation, copy with exclusions,
literal substitutions, tool-file creation and deletion, registration rewrite,
README generation), the top-level error/cleanup handler, and the CLI exit
behaviour.

Modelling conventions:
- Python `str` values are embedded as Lean `String` (a wrapper around
  `List Char`); the string algorithms are defined on `List Char`.
- `str.lower` is embedded as `Char.toLower` per character; for the character
  classes these functions are applied to, the two agree.
- The filesystem is a finite map from paths (lists of components, relative to
  the working directory) to file contents, plus a set of directory paths.
- Fallible effects (unwritable paths, missing files, a keyboard interrupt
  delivered at a primitive operation) are driven by an explicit oracle, and
  the workflow is written in a small state-error monad over that oracle.
-/

namespace Scaffold

/-! ## Character classes of the normalization regexes (install.py 271-332) -/

/-- The class `[a-z]` (codes 97-122). -/
def isLowerAZ (c : Char) : Bool := 97 ≤ c.toNat && c.toNat ≤ 122

/-- The class `[0-9]` (codes 48-57). -/
def isDigit09 (c : Char) : Bool := 48 ≤ c.toNat && c.toNat ≤ 57

/-- The class `[a-z0-9-]` of `normalize_service_name` (install.py 276). -/
def allowedSvc (c : Char) : Bool := isLowerAZ c || isDigit09 c || c == '-'

/-- The class `[a-z0-9_]` of `normalize_tool_name` (install.py 295). -/
def allowedTool (c : Char) : Bool := isLowerAZ c || isDigit09 c || c == '_'

/-! ## Python string primitives used by the normalizers -/

/-- `re.sub(r"[^X]+", sep, s)`: replace every maximal run of characters
outside `allowed` by a single `sep`.  The boolean records whether the
previous character was part of such a run. -/
def subRuns (allowed : Char → Bool) (sep : Char) : List Char → Bool → List Char
  | [], _ => []
  | c :: cs, inRun =>
    if allowed c then c :: subRuns allowed sep cs false
    else if inRun then subRuns allowed sep cs true
    else sep :: subRuns allowed sep cs true

/-- `re.sub(r"S+", S, s)` for a single character `S`: collapse runs of `sep`
into one occurrence.  The boolean records whether the previous kept character
was `sep`. -/
def collapseRuns (sep : Char) : List Char → Bool → List Char
  | [], _ => []
  | c :: cs, prev =>
    if c == sep then
      (if prev then collapseRuns sep cs true else sep :: collapseRuns sep cs true)
    else c :: collapseRuns sep cs false

/-- Python `str.strip` family: drop characters satisfying `p` from both
ends (`.strip()` with `p` = whitespace, `.strip("-")` with `p` = `= '-'`). -/
def stripEnds (p : Char → Bool) (l : List Char) : List Char :=
  ((l.dropWhile p).reverse.dropWhile p).reverse

/-! ## The two normalizers (install.py 271-306)

Both normalizers share one algorithm and differ only in the character class,
the separator and the fallback tokens, so the algorithm is defined once and
instantiated twice. -/

/-- install.py 279-286 / 298-305: if the normalized text is non-empty and
does not start with a letter, scan forward to the first `[a-z]` (discarding
what precedes it), or, when it has no letter at all, prepend `pre`. -/
def forceLeadingLetter (pre : List Char) : List Char → List Char
  | [] => []
  | c :: cs =>
    if c.isAlpha then c :: cs
    else if (c :: cs).any isLowerAZ then (c :: cs).dropWhile (fun d => !(isLowerAZ d))
    else pre ++ (c :: cs)

/-- Common body of `normalize_service_name` / `normalize_tool_name`:
lowercase and trim, replace runs of disallowed characters by `sep`,
collapse and strip separators, then force a leading letter, defaulting to
`dflt` when the result is empty (`normalized or "service"`). -/
def normalizeCore (allowed : Char → Bool) (sep : Char) (pre dflt : List Char)
    (s : List Char) : List Char :=
  let n2 := stripEnds (fun c => c == sep)
    (collapseRuns sep
      (subRuns allowed sep (stripEnds Char.isWhitespace (s.map Char.toLower)) false) false)
  if forceLeadingLetter pre n2 = [] then dflt else forceLeadingLetter pre n2

/-- install.py 271-287: `normalize_service_name`. -/
def normalize_service_name (name : String) : String :=
  ⟨normalizeCore allowedSvc '-' "service-".data "service".data name.data⟩

/-- install.py 290-306: `normalize_tool_name`. -/
def normalize_tool_name (name : String) : String :=
  ⟨normalizeCore allowedTool '_' "tool_".data "tool".data name.data⟩

/-! ## Validators (install.py 309-326) -/

/-- `re.match(r"^[a-z][a-zX]*$", name)` as a boolean on the character list. -/
def matchesClass (allowed : Char → Bool) : List Char → Bool
  | [] => false
  | c :: cs => isLowerAZ c && cs.all allowed

/-- install.py 309-316: `validate_service_name` (truth value only; the
guidance text it prints is not modelled). -/
def validate_service_name (name : String) : Bool :=
  matchesClass allowedSvc name.data

/-- install.py 319-326: `validate_tool_name`. -/
def validate_tool_name (name : String) : Bool :=
  matchesClass allowedTool name.data

/-! ## Canonical form of normalizer outputs -/

/-- No two adjacent characters are both `sep`. -/
def NoRun (sep : Char) (l : List Char) : Prop :=
  List.Chain' (fun a b => ¬(a = sep ∧ b = sep)) l

/-- Shape invariant of normalizer outputs: nonempty, leading `[a-z]`
character, every character in the class, no runs of the separator, and no
trailing separator (a leading separator is excluded by the leading letter). -/
structure CanonForm (allowed : Char → Bool) (sep : Char) (l : List Char) : Prop where
  nonempty : l ≠ []
  headLow : ∀ c cs, l = c :: cs → isLowerAZ c = true
  allA : l.all allowed = true
  noRun : NoRun sep l
  lastNe : ∀ c, l.getLast? = some c → ¬ c = sep

/-! ## Boolean canonical-form check (used to discharge concrete instances) -/

/-- The list starts with an `[a-z]` character. -/
def lowHead : List Char → Bool
  | [] => false
  | c :: _ => isLowerAZ c

/-- Boolean counterpart of `NoRun`. -/
def noRunB (sep : Char) : List Char → Bool
  | [] => true
  | [_] => true
  | a :: b :: r => !(a == sep && b == sep) && noRunB sep (b :: r)

/-- The list ends in a character other than `sep`. -/
def lastNotSep (sep : Char) (l : List Char) : Bool :=
  match l.getLast? with
  | none => false
  | some c => !(c == sep)

/-! ## Further Python string primitives used by the installer -/

/-- Does the pattern (first argument) occur at the start of the list? -/
def startsWithL : List Char → List Char → Bool
  | [], _ => true
  | _ :: _, [] => false
  | a :: as, b :: bs => a == b && startsWithL as bs

/-- Worker for `pyReplace`; the fuel (initialized to the list length) makes
the recursion structural, and never runs out because each step consumes at
least one character. -/
def pyReplaceGo (old new : List Char) : Nat → List Char → List Char
  | _, [] => []
  | 0, l => l
  | fuel + 1, c :: rest =>
    if startsWithL old (c :: rest) then
      new ++ pyReplaceGo old new fuel (rest.drop (old.length - 1))
    else c :: pyReplaceGo old new fuel rest

/-- Python `s.replace(old, new)`: replace all non-overlapping occurrences,
scanning left to right.  All call sites in the installer pass a non-empty
`old`; for an empty `old` this model returns `s` unchanged. -/
def pyReplace (s old new : String) : String :=
  if old.data.isEmpty then s else ⟨pyReplaceGo old.data new.data s.data.length s.data⟩

/-- Python `pat in s` (substring containment). -/
def pyContains (s pat : String) : Bool :=
  s.data.tails.any (startsWithL pat.data)

/-- Python `s.lower()` (the installer only applies it to ASCII data). -/
def pyLower (s : String) : String := ⟨s.data.map Char.toLower⟩

/-- Python `s.strip()` with no argument: trim whitespace from both ends. -/
def pyStripWs (s : String) : String := ⟨stripEnds Char.isWhitespace s.data⟩

/-- Python `str.capitalize`: first character uppercased, rest lowercased. -/
def pyCapitalize : List Char → List Char
  | [] => []
  | c :: cs => c.toUpper :: cs.map Char.toLower

/-- Worker for `pyTitle`; the flag records whether the previous character
was alphabetic. -/
def pyTitleGo : List Char → Bool → List Char
  | [], _ => []
  | c :: cs, prevAlpha =>
    (if c.isAlpha then (if prevAlpha then c.toLower else c.toUpper) else c)
      :: pyTitleGo cs c.isAlpha

/-- Python `s.title()`: uppercase every letter that follows a non-letter,
lowercase every letter that follows a letter. -/
def pyTitle (s : String) : String := ⟨pyTitleGo s.data false⟩

/-- `re.split(r"[_-]", name)`: split at every single `-` or `_`
(consecutive separators produce empty parts). -/
def splitDashUnder : List Char → List (List Char)
  | [] => [[]]
  | c :: rest =>
    match splitDashUnder rest with
    | [] => [[c]]
    | h :: t => if c == '-' || c == '_' then [] :: h :: t else (c :: h) :: t

/-- install.py 329-332: `to_pascal_case`. -/
def to_pascal_case (name : String) : String :=
  ⟨((splitDashUnder name.data).map pyCapitalize).flatten⟩

/-- A Python import statement at column 0 (`from ...` or `import ...`). -/
def isImportLine (line : String) : Bool :=
  startsWithL "from ".data line.data || startsWithL "import ".data line.data

/-- The import lines of a module source. -/
def importLines (content : List String) : List String :=
  content.filter isImportLine

/-- Python `s.replace(old, new)` applied to a whole text represented by its
lines (the result of `split("\n")`).  Faithful to the string-level replace
because every pattern the installer substitutes is newline-free, so no
occurrence can span a line boundary. -/
def replaceInLines (content : List String) (old new : String) : List String :=
  content.map (fun line => pyReplace line old new)

/-- Python `pat in text` for a text represented by its lines and a
newline-free pattern `pat`. -/
def linesContain (content : List String) (pat : String) : Bool :=
  content.any (fun line => pyContains line pat)

/-! ## Filesystem model

Paths are lists of components relative to the working directory the
installer was started from.  A filesystem is a finite map from file paths
to contents plus the set of directory paths. -/

abbrev FPath := List String

structure FS where
  files : List (FPath × List String)
  dirs : List FPath
deriving DecidableEq, Repr

/-- The empty working directory. -/
def emptyFS : FS := ⟨[], []⟩

def FS.isFile (fs : FS) (p : FPath) : Bool := fs.files.any (fun e => e.1 == p)

def FS.isDir (fs : FS) (p : FPath) : Bool := fs.dirs.any (fun d => d == p)

/-- `Path.exists()`. -/
def FS.pathExists (fs : FS) (p : FPath) : Bool := fs.isFile p || fs.isDir p

/-- `Path.read_text()` when the file exists (contents as lines). -/
def FS.read (fs : FS) (p : FPath) : Option (List String) :=
  (fs.files.find? (fun e => e.1 == p)).map (fun e => e.2)

/-- `Path.write_text(content)`: create or overwrite. -/
def FS.write (fs : FS) (p : FPath) (content : List String) : FS :=
  ⟨(p, content) :: fs.files.filter (fun e => !(e.1 == p)), fs.dirs⟩

/-- `Path.mkdir(parents=True, exist_ok=True)`. -/
def FS.mkdir (fs : FS) (p : FPath) : FS := ⟨fs.files, p :: fs.dirs⟩

/-- `Path.unlink()` (the caller guards existence). -/
def FS.unlink (fs : FS) (p : FPath) : FS :=
  ⟨fs.files.filter (fun e => !(e.1 == p)), fs.dirs⟩

/-- Is `p` a prefix of path `q` (so `q` lies in the tree rooted at `p`)? -/
def fpathUnder : FPath → FPath → Bool
  | [], _ => true
  | _ :: _, [] => false
  | a :: as, b :: bs => a == b && fpathUnder as bs

/-- `shutil.rmtree(p)`: remove the whole tree rooted at `p`. -/
def FS.rmtree (fs : FS) (p : FPath) : FS :=
  ⟨fs.files.filter (fun e => !(fpathUnder p e.1)),
   fs.dirs.filter (fun d => !(fpathUnder p d))⟩

/-- A top-level entry of the template directory: a plain file, or a
directory given by its flattened contents (relative sub-directory paths and
relative file paths with contents).  `shutil.copytree` is modelled as bulk
insertion of the flattened tree. -/
inductive TItem where
  | file (content : List String)
  | dir (subdirs : List FPath) (subfiles : List (FPath × List String))
deriving DecidableEq, Repr

/-- The template directory: its top-level names and entries. -/
abbrev Template := List (String × TItem)

/-- `shutil.copy2` / `shutil.copytree` of one template entry to `dest`. -/
def copyTItem (dest : FPath) : TItem → FS → FS
  | .file content, fs => fs.write dest content
  | .dir ds fls, fs =>
    fls.foldl (fun acc e => acc.write (dest ++ e.1) e.2)
      (ds.foldl (fun acc d => acc.mkdir (dest ++ d)) (fs.mkdir dest))

/-! ## Effect oracle and state-error monad

The oracle decides which primitive filesystem operations raise `OSError`
(e.g. an unwritable target), whether the template download fails, and at
which primitive operation (counting from 0) a `KeyboardInterrupt` is
delivered. -/

structure Oracle where
  failWrite : FPath → Bool
  failUnlinkProbe : Bool
  downloadFails : Bool
  intrAt : Option Nat

/-- The oracle of a run where nothing goes wrong. -/
def cleanOracle : Oracle := ⟨fun _ => false, false, false, none⟩

structure St where
  fs : FS
  ops : Nat
deriving DecidableEq, Repr

inductive Res (α : Type) where
  | ok (a : α) (s : St)
  | exc (s : St)
  | intr (s : St)
deriving DecidableEq, Repr

def M (α : Type) := Oracle → St → Res α

instance : Monad M where
  pure a := fun _ s => .ok a s
  bind m f := fun orc s =>
    match m orc s with
    | .ok a s' => f a orc s'
    | .exc s' => .exc s'
    | .intr s' => .intr s'

/-- One primitive operation: a pending interrupt fires first; otherwise the
operation either succeeds (possibly changing the filesystem) or raises. -/
def prim {α : Type} (f : Oracle → FS → Except Unit (α × FS)) : M α := fun orc s =>
  if orc.intrAt = some s.ops then .intr ⟨s.fs, s.ops + 1⟩
  else
    match f orc s.fs with
    | .ok (a, fs') => .ok a ⟨fs', s.ops + 1⟩
    | .error _ => .exc ⟨s.fs, s.ops + 1⟩

def mExistsPath (p : FPath) : M Bool := prim (fun _ fs => .ok (fs.pathExists p, fs))

def mMkdir (p : FPath) : M Unit :=
  prim (fun orc fs => if orc.failWrite p then .error () else .ok ((), fs.mkdir p))

def mWrite (p : FPath) (content : List String) : M Unit :=
  prim (fun orc fs => if orc.failWrite p then .error () else .ok ((), fs.write p content))

def mRead (p : FPath) : M (List String) :=
  prim (fun _ fs =>
    match fs.read p with
    | some content => .ok (content, fs)
    | none => .error ())

def mUnlink (p : FPath) : M Unit :=
  prim (fun _ fs => if fs.isFile p then .ok ((), fs.unlink p) else .error ())

def mCopyItem (p : FPath) (it : TItem) : M Unit :=
  prim (fun orc fs => if orc.failWrite p then .error () else .ok ((), copyTItem p it fs))

/-- install.py 632-639: `os.chdir` plus three `os.system` git calls; their
exit status is ignored and no modelled filesystem state changes. -/
def mGit : M Unit := prim (fun _ fs => .ok ((), fs))

/-- install.py 509-524: the copy loop over the template entries, skipping
the excluded names. -/
def copyItems (target : FPath) (excl : List String) : Template → M Unit
  | [] => pure ()
  | (n, it) :: rest =>
    if excl.contains n then copyItems target excl rest
    else do
      mCopyItem (target ++ [n]) it
      copyItems target excl rest

/-! ## Environment probe (install.py 134-248) -/

/-- The environment of a run: whether stdin is a tty, whether the
python/git/network checks (which have no filesystem effect) pass, and the
values the interactive prompts return.  `promptService` / `promptTool` model
the value `get_input` returns (already stripped and non-empty by its retry
loop). -/
structure Env where
  interactive : Bool
  envChecksOk : Bool
  confirmAnswer : String
  promptService : String
  promptTool : String

/-- The probe file of the write-permission check (install.py 202). -/
def probePath : FPath := [".install_test"]

/-- install.py 200-213: the write-permission check.  `touch` then `unlink`
inside one `try`; any `OSError` from either call reports failure.  A `touch`
of an existing file leaves the filesystem unchanged. -/
def write_permission_check (orc : Oracle) (fs : FS) : Bool × FS :=
  if orc.failWrite probePath then (false, fs)
  else
    let fs1 := if fs.isFile probePath then fs else fs.write probePath [""]
    if orc.failUnlinkProbe then (false, fs1)
    else (true, fs1.unlink probePath)

/-- install.py 134-243: `check_environment`.  The platform, Python, Git and
network checks have no filesystem effect and are summarized by
`env.envChecksOk`; they run before the write-permission probe, and the AWS
CLI check afterwards is warn-only. -/
def check_environment (env : Env) (orc : Oracle) (fs : FS) : Bool × FS :=
  if !env.envChecksOk then (false, fs)
  else write_permission_check orc fs

/-! ## Template file contents (mirrors of the scaffold sources) -/

/-- Contents (as lines) of app/tools/tool_template.py in the scaffold repository. -/
def tool_template_py : List String :=
  ["\"\"\"",
   "Tool Template - Comprehensive MCP Tool Example",
   "",
   "This is a complete template file for creating new MCP tools using the @oma_tool decorator.",
   "Copy this file and modify it to create your own tools.",
   "",
   "Key Concepts:",
   "- Request/Response models with proper validation using Pydantic",
   "- Context injection for accessing shared data across tool chains",
   "- Proper parameter types (required, optional, default values)",
   "- Error handling and validation",
   "- Tool chaining through context.set_shared_data / get_shared_data",
   "",
   "When to use enable=False:",
   "- During development (tool not ready for production)",
   "- For internal/debug tools that shouldn\x27t be exposed to agents",
   "- Tools that are disabled but kept for reference",
   "",
   "Effect of enable=False:",
   "- Tool will NOT appear in /tools/discover (agent tool discovery)",
   "- Tool WILL appear in /tools/list (complete tool inventory)",
   "- Tool can still be executed directly via POST /tools/\x7btool_name\x7d",
   "\"\"\"",
   "",
   "from typing import Optional, List",
   "from fastapi import Depends, HTTPException",
   "from pydantic import BaseModel, Field, field_validator",
   "",
   "from oxsci_oma_mcp import oma_tool, require_context, IMCPToolContext",
   "",
   "",
   "# ==================== Request/Response Models ====================",
   "",
   "",
   "class ToolTemplateRequest(BaseModel):",
   "    \"\"\"",
   "    Request model for tool_template",
   "",
   "    Demonstrates different parameter types and validation patterns.",
   "    \"\"\"",
   "",
   "    # Required parameter - must be provided",
   "    input_text: str = Field(",
   "        ...,  # ... means required",
   "        description=\"Input text to process\",",
   "        min_length=1,",
   "        max_length=10000,",
   "    )",
   "",
   "    # Optional parameter with default value",
   "    uppercase: bool = Field(",
   "        default=False,",
   "        description=\"Convert to uppercase if True\",",
   "    )",
   "",
   "    # Optional parameter that can be None",
   "    prefix: Optional[str] = Field(",
   "        default=None,",
   "        description=\"Optional prefix to add to result\",",
   "        max_length=100,",
   "    )",
   "",
   "    # Parameter with constraints",
   "    repeat_count: int = Field(",
   "        default=1,",
   "        description=\"Number of times to repeat the text\",",
   "        ge=1,  # greater than or equal to 1",
   "        le=10,  # less than or equal to 10",
   "    )",
   "",
   "    # List parameter with default empty list",
   "    tags: List[str] = Field(",
   "        default_factory=list,",
   "        description=\"Optional tags to attach (max 20 items)\",",
   "    )",
   "",
   "    # Custom validator example (Pydantic V2 style)",
   "    @field_validator(\"input_text\")",
   "    @classmethod",
   "    def validate_input_text(cls, v: str) -> str:",
   "        \"\"\"Custom validation for input_text\"\"\"",
   "        if not v or v.isspace():",
   "            raise ValueError(\"Input text cannot be empty or whitespace only\")",
   "        return v.strip()",
   "",
   "",
   "class ToolTemplateResponse(BaseModel):",
   "    \"\"\"",
   "    Response model for tool_template",
   "",
   "    Always define clear response structure for better API documentation.",
   "    \"\"\"",
   "",
   "    result: str = Field(",
   "        ...,",
   "        description=\"Processed result text\",",
   "    )",
   "",
   "    metadata: dict = Field(",
   "        default_factory=dict,",
   "        description=\"Additional metadata about the processing\",",
   "    )",
   "",
   "    length: int = Field(",
   "        ...,",
   "        description=\"Length of the result text\",",
   "    )",
   "",
   "    processing_info: dict = Field(",
   "        default_factory=dict,",
   "        description=\"Information about how the text was processed\",",
   "    )",
   "",
   "",
   "# ==================== Tool Definition ====================",
   "",
   "",
   "@oma_tool(",
   "    description=\"Template tool demonstrating comprehensive MCP tool patterns and best practices\",",
   "    version=\"1.0.0\",",
   "    enable=False,  # Set to False during development or to disable from agent discovery",
   ")",
   "async def tool_template(",
   "    request: ToolTemplateRequest,",
   "    context: IMCPToolContext = Depends(require_context),",
   ") -> ToolTemplateResponse:",
   "    \"\"\"",
   "    Comprehensive tool template implementation.",
   "",
   "    This tool demonstrates:",
   "    - Different parameter types (required, optional, with defaults)",
   "    - Context usage for tool chaining",
   "    - Proper error handling",
   "    - Metadata tracking",
   "    - Business logic implementation",
   "",
   "    Context Usage:",
   "    - Use context.get_shared_data(key, default) to read data from previous tools",
   "    - Use context.set_shared_data(key, value) to pass data to next tools",
   "    - Context is shared across all tools in a single execution chain",
   "",
   "    Args:",
   "        request: Tool request parameters (automatically validated by Pydantic)",
   "        context: MCP context for accessing shared data across tool chains",
   "",
   "    Returns:",
   "        ToolTemplateResponse with processed result and metadata",
   "",
   "    Raises:",
   "        HTTPException: If processing fails (e.g., validation errors, business logic errors)",
   "",
   "    Example Usage:",
   "        POST /tools/tool_template",
   "        \x7b",
   "            \"arguments\": \x7b",
   "                \"input_text\": \"Hello World\",",
   "                \"uppercase\": true,",
   "                \"prefix\": \">> \",",
   "                \"repeat_count\": 2,",
   "                \"tags\": [\"example\", \"demo\"]",
   "            \x7d,",
   "            \"context\": \x7b",
   "                \"user_id\": \"user123\",",
   "                \"session_id\": \"session456\"",
   "            \x7d",
   "        \x7d",
   "    \"\"\"",
   "",
   "    # ==================== 1. Access Context Data ====================",
   "    # Get data from previous tools in the chain (if any)",
   "    # Always provide a default value to handle the case when the key doesn\x27t exist",
   "    user_id = context.get_shared_data(\"user_id\", \"anonymous\")",
   "    previous_result = context.get_shared_data(\"last_result\", None)",
   "    execution_count = context.get_shared_data(\"execution_count\", 0)",
   "",
   "    # ==================== 2. Business Logic / Processing ====================",
   "    # Start with input text (already validated by Pydantic)",
   "    result = request.input_text",
   "",
   "    # Apply uppercase transformation if requested",
   "    if request.uppercase:",
   "        result = result.upper()",
   "",
   "    # Add prefix if provided",
   "    if request.prefix:",
   "        result = f\"\x7brequest.prefix\x7d\x7bresult\x7d\"",
   "",
   "    # Repeat the text if repeat_count > 1",
   "    if request.repeat_count > 1:",
   "        result = \" \".join([result] * request.repeat_count)",
   "",
   "    # Example: If there was a previous result in the chain, append it",
   "    if previous_result:",
   "        result = f\"\x7bresult\x7d\\n[Previous: \x7bprevious_result\x7d]\"",
   "",
   "    # ==================== 3. Build Metadata ====================",
   "    metadata = \x7b",
   "        \"processed_by\": user_id,",
   "        \"tags\": request.tags,",
   "        \"uppercase_applied\": request.uppercase,",
   "        \"prefix_applied\": request.prefix is not None,",
   "        \"repeat_count\": request.repeat_count,",
   "        \"has_previous_result\": previous_result is not None,",
   "    \x7d",
   "",
   "    processing_info = \x7b",
   "        \"original_text\": request.input_text,",
   "        \"original_length\": len(request.input_text),",
   "        \"result_length\": len(result),",
   "        \"transformations\": [],",
   "    \x7d",
   "",
   "    # Track what transformations were applied",
   "    if request.uppercase:",
   "        processing_info[\"transformations\"].append(\"uppercase\")",
   "    if request.prefix:",
   "        processing_info[\"transformations\"].append(f\"prefix: \x7brequest.prefix\x7d\")",
   "    if request.repeat_count > 1:",
   "        processing_info[\"transformations\"].append(f\"repeated \x7brequest.repeat_count\x7dx\")",
   "",
   "    # ==================== 4. Update Context for Next Tools ====================",
   "    # Store results that might be useful for subsequent tools in the chain",
   "    context.set_shared_data(\"last_result\", result)",
   "    context.set_shared_data(\"last_length\", len(result))",
   "    context.set_shared_data(\"execution_count\", execution_count + 1)",
   "    context.set_shared_data(\"last_tool\", \"tool_template\")",
   "",
   "    # Store tags for potential filtering by later tools",
   "    if request.tags:",
   "        context.set_shared_data(\"last_tags\", request.tags)",
   "",
   "    # ==================== 5. Return Response ====================",
   "    return ToolTemplateResponse(",
   "        result=result,",
   "        metadata=metadata,",
   "        length=len(result),",
   "        processing_info=processing_info,",
   "    )",
   "",
   "",
   "# ==================== Additional Examples ====================",
   "",
   "\"\"\"",
   "Example 1: Simple text processing",
   "POST /tools/tool_template",
   "\x7b",
   "    \"arguments\": \x7b",
   "        \"input_text\": \"hello world\"",
   "    \x7d,",
   "    \"context\": \x7b\x7d",
   "\x7d",
   "Response: \x7b\"result\": \"hello world\", \"length\": 11, ...\x7d",
   "",
   "Example 2: Complex transformation",
   "POST /tools/tool_template",
   "\x7b",
   "    \"arguments\": \x7b",
   "        \"input_text\": \"test\",",
   "        \"uppercase\": true,",
   "        \"prefix\": \">> \",",
   "        \"repeat_count\": 3,",
   "        \"tags\": [\"important\", \"demo\"]",
   "    \x7d,",
   "    \"context\": \x7b",
   "        \"user_id\": \"user123\"",
   "    \x7d",
   "\x7d",
   "Response: \x7b\"result\": \">> TEST >> TEST >> TEST\", \"length\": 23, ...\x7d",
   "",
   "Example 3: Tool chaining (this tool can read data from previous tools)",
   "If previous tool stored data in context, this tool can access it:",
   "- context.get_shared_data(\"last_result\") - get previous result",
   "- context.get_shared_data(\"user_preferences\") - get user settings",
   "- etc.",
   "",
   "Tool Discovery:",
   "- With enable=True: Tool appears in /tools/discover (agents can find it)",
   "- With enable=False: Tool does NOT appear in /tools/discover",
   "- Always appears in /tools/list regardless of enable flag",
   "- Can still be executed via POST /tools/tool_template regardless of enable flag",
   "\"\"\"",
   "",
   ""]

/-- Contents (as lines) of app/tools/example_tool.py in the scaffold repository. -/
def example_tool_py : List String :=
  ["\"\"\"",
   "Example MCP Tool",
   "",
   "This is a template for creating MCP tools using the @oma_tool decorator.",
   "\"\"\"",
   "",
   "from fastapi import Depends",
   "from pydantic import BaseModel, Field",
   "from oxsci_oma_mcp import oma_tool, require_context, IMCPToolContext",
   "",
   "",
   "# ==================== Models ====================",
   "",
   "",
   "class ExampleToolRequest(BaseModel):",
   "    \"\"\"Example tool request model\"\"\"",
   "",
   "    input_text: str = Field(..., description=\"Input text to process\")",
   "    uppercase: bool = Field(False, description=\"Convert to uppercase\")",
   "",
   "",
   "class ExampleToolResponse(BaseModel):",
   "    \"\"\"Example tool response model\"\"\"",
   "",
   "    result: str = Field(..., description=\"Processed result\")",
   "    length: int = Field(..., description=\"Length of result\")",
   "",
   "",
   "# ==================== Tool Definition ====================",
   "",
   "",
   "@oma_tool(",
   "    description=\"Example tool that processes input text\",",
   "    version=\"1.0.0\",",
   ")",
   "async def example_tool(",
   "    request: ExampleToolRequest,",
   "    context: IMCPToolContext = Depends(require_context),",
   ") -> ExampleToolResponse:",
   "    \"\"\"",
   "    Example tool implementation",
   "",
   "    Features:",
   "    - Process input text",
   "    - Optionally convert to uppercase",
   "    - Store result in context for tool chaining",
   "    \"\"\"",
   "    # Access context data",
   "    user_id = context.get_shared_data(\"user_id\", \"unknown\")",
   "",
   "    # Process the input",
   "    result = request.input_text",
   "    if request.uppercase:",
   "        result = result.upper()",
   "",
   "    # Add processing note",
   "    result = f\"[User: \x7buser_id\x7d] \x7bresult\x7d\"",
   "",
   "    # Update context for next tool",
   "    context.set_shared_data(\"last_result\", result)",
   "    context.set_shared_data(\"last_length\", len(result))",
   "",
   "    # Return response",
   "    return ExampleToolResponse(result=result, length=len(result))",
   "",
   ""]

/-- Contents (as lines) of app/tools/example_data_service_tool.py in the scaffold repository. -/
def example_data_service_tool_py : List String :=
  ["\"\"\"",
   "Example tool demonstrating DataServiceClient usage",
   "",
   "This tool shows how to use the injected DataServiceClient from oxsci-oma-mcp",
   "to call data service endpoints with minimal boilerplate code.",
   "",
   "Note: IDataServiceClient and require_data_service are provided by oxsci-oma-mcp >= 0.2.0",
   "\"\"\"",
   "",
   "from fastapi import Depends",
   "from pydantic import BaseModel, Field",
   "",
   "from oxsci_oma_mcp import (",
   "    oma_tool,",
   "    require_context,",
   "    IMCPToolContext,",
   "    IDataServiceClient,",
   "    require_data_service,",
   ")",
   "",
   "",
   "class ExampleDataServiceRequest(BaseModel):",
   "    \"\"\"Request model for example_data_service_tool\"\"\"",
   "",
   "    overview_id: str = Field(",
   "        ..., description=\"Overview ID to fetch sections from data service\"",
   "    )",
   "    user_id: str = Field(default=None, description=\"Optional user ID for filtering\")",
   "",
   "",
   "class ExampleDataServiceResponse(BaseModel):",
   "    \"\"\"Response model for example_data_service_tool\"\"\"",
   "",
   "    overview_id: str = Field(..., description=\"Overview ID that was fetched\")",
   "    sections: list = Field(..., description=\"List of sections from data service\")",
   "    metadata: dict = Field(",
   "        default_factory=dict, description=\"Additional metadata about the operation\"",
   "    )",
   "",
   "",
   "@oma_tool(",
   "    description=\"Example tool demonstrating DataServiceClient usage with data service integration\",",
   "    version=\"1.0.0\",",
   "    enable=False,  # Set to True to enable this tool",
   ")",
   "async def example_data_service_tool(",
   "    request: ExampleDataServiceRequest,",
   "    context: IMCPToolContext = Depends(require_context),",
   "    data_service: IDataServiceClient = Depends(require_data_service),",
   ") -> ExampleDataServiceResponse:",
   "    \"\"\"",
   "    Example tool demonstrating simplified data service calls using DataServiceClient.",
   "",
   "    This tool shows:",
   "    - How to inject IDataServiceClient via Depends(require_data_service)",
   "    - How to make clean API calls without boilerplate code",
   "    - How authentication is automatically forwarded",
   "    - How to handle responses from data service",
   "",
   "    Comparison with old pattern:",
   "        OLD:",
   "            service_client = ServiceClient(f\"\x7bconfig.SERVICE_NAME\x7d-get_sections\")",
   "            sections = await service_client.call_service(",
   "                target_service_url=config.DATA_SERVICE_URL,",
   "                method=\"GET\",",
   "                endpoint=f\"/article_structured_contents/overviews/\x7boverview_id\x7d/sections\",",
   "                timeout=30,",
   "                query_params=\x7b**(\x7b\"user_id\": user_id\x7d if user_id else \x7b\x7d)\x7d,",
   "            )",
   "",
   "        NEW:",
   "            sections = await data_service.call(",
   "                method=\"GET\",",
   "                endpoint=f\"/article_structured_contents/overviews/\x7boverview_id\x7d/sections\",",
   "                query_params=\x7b\"user_id\": user_id\x7d if user_id else \x7b\x7d,",
   "            )",
   "",
   "    Args:",
   "        request: Tool request parameters",
   "        context: MCP context for accessing shared data (auto-injected by tool_router)",
   "        data_service: Data service client (auto-injected by tool_router)",
   "",
   "    Returns:",
   "        ExampleDataServiceResponse with sections data and metadata",
   "",
   "    Example:",
   "        POST /tools/example_data_service_tool",
   "        \x7b",
   "            \"arguments\": \x7b",
   "                \"overview_id\": \"overview_123\",",
   "                \"user_id\": \"user_456\"",
   "            \x7d,",
   "            \"context\": \x7b\x7d",
   "        \x7d",
   "    \"\"\"",
   "    # Get user_id from request or context",
   "    user_id = request.user_id or context.get_shared_data(\"user_id\", None)",
   "",
   "    # ==================== Clean and Simple Data Service Call ====================",
   "    # No need to:",
   "    # - Create ServiceClient",
   "    # - Pass target_service_url",
   "    # - Pass user_request for authentication",
   "    # All handled automatically by DataServiceClient!",
   "",
   "    try:",
   "        sections = await data_service.call(",
   "            method=\"GET\",",
   "            endpoint=f\"/article_structured_contents/overviews/\x7brequest.overview_id\x7d/sections\",",
   "            query_params=\x7b\"user_id\": user_id\x7d if user_id else \x7b\x7d,",
   "            timeout=30,",
   "        )",
   "    except Exception as e:",
   "        # Handle error (endpoint might not exist in your data service)",
   "        sections = []",
   "        metadata = \x7b",
   "            \"error\": str(e),",
   "            \"note\": \"This is a demonstration tool. Adjust the endpoint to match your data service API.\",",
   "        \x7d",
   "    else:",
   "        metadata = \x7b",
   "            \"overview_id\": request.overview_id,",
   "            \"user_id\": user_id,",
   "            \"section_count\": len(sections) if isinstance(sections, list) else 0,",
   "        \x7d",
   "",
   "    # ==================== Store in context for tool chaining ====================",
   "    context.set_shared_data(\"last_overview_id\", request.overview_id)",
   "    context.set_shared_data(\"last_sections\", sections)",
   "",
   "    # ==================== Return response ====================",
   "    return ExampleDataServiceResponse(",
   "        overview_id=request.overview_id, sections=sections, metadata=metadata",
   "    )",
   "",
   "",
   "# ==================== Benefits Summary ====================",
   "\"\"\"",
   "Benefits of using IDataServiceClient (from oxsci-oma-mcp):",
   "",
   "\u2705 **Automatic Injection**: No manual client creation",
   "\u2705 **Pre-configured**: DATA_SERVICE_URL auto-loaded from config",
   "\u2705 **Auth Forwarding**: Authentication automatically passed through",
   "\u2705 **Single Instance**: Reused across multiple calls in same request",
   "\u2705 **Clean API**: Only specify method and endpoint",
   "\u2705 **Less Code**: Reduces boilerplate by ~60%",
   "\u2705 **Consistent Pattern**: Same as require_context from oxsci-oma-mcp",
   "",
   "Code Reduction Example:",
   "    Before: 6 lines to make a data service call",
   "    After:  3 lines to make the same call",
   "    Reduction: 50% less code, 100% clearer intent",
   "\"\"\"",
   "",
   ""]

/-- Contents (as lines) of app/tools/pdf_section_saver.py in the scaffold repository. -/
def pdf_section_saver_py : List String :=
  ["\"\"\"",
   "PDF Section Saver Tool",
   "",
   "A tool that demonstrates proper UTF-8 encoding when saving PDF sections",
   "to an external data service. This solves the Latin-1 encoding issue.",
   "\"\"\"",
   "",
   "from fastapi import Depends",
   "from pydantic import BaseModel, Field",
   "from oxsci_oma_mcp import oma_tool, require_context, IMCPToolContext",
   "import httpx",
   "import logging",
   "from typing import Optional",
   "",
   "logger = logging.getLogger(__name__)",
   "",
   "",
   "# ==================== Models ====================",
   "",
   "",
   "class PDFSectionRequest(BaseModel):",
   "    \"\"\"Request model for saving PDF sections\"\"\"",
   "",
   "    paper_id: str = Field(..., description=\"Paper ID\")",
   "    section_title: str = Field(..., description=\"Section title (may contain Unicode)\")",
   "    section_content: str = Field(..., description=\"Section content (may contain Unicode)\")",
   "    section_order: int = Field(..., description=\"Section order number\")",
   "    data_service_url: str = Field(",
   "        ...,",
   "        description=\"Data service base URL (e.g., https://data-service.example.com)\"",
   "    )",
   "",
   "",
   "class PDFSectionResponse(BaseModel):",
   "    \"\"\"Response model for PDF section saving\"\"\"",
   "",
   "    success: bool = Field(..., description=\"Whether the save was successful\")",
   "    section_id: Optional[str] = Field(None, description=\"Created section ID\")",
   "    error: Optional[str] = Field(None, description=\"Error message if failed\")",
   "    encoding_used: str = Field(..., description=\"Encoding used for the request\")",
   "",
   "",
   "# ==================== Tool Definition ====================",
   "",
   "",
   "@oma_tool(",
   "    description=\"Save PDF section to data service with proper UTF-8 encoding\",",
   "    version=\"1.0.0\",",
   ")",
   "async def pdf_section_saver(",
   "    request: PDFSectionRequest,",
   "    context: IMCPToolContext = Depends(require_context),",
   ") -> PDFSectionResponse:",
   "    \"\"\"",
   "    Save PDF section to external data service with correct UTF-8 encoding.",
   "",
   "    This tool demonstrates the CORRECT way to handle Unicode content:",
   "    - Explicitly use UTF-8 encoding",
   "    - Set proper Content-Type headers",
   "    - Handle encoding errors gracefully",
   "",
   "    Features:",
   "    - Supports Unicode characters (e.g., \\u201c, \\u2705)",
   "    - Proper error handling for encoding issues",
   "    - Logs encoding details for debugging",
   "    \"\"\"",
   "    user_id = context.get_shared_data(\"user_id\", \"unknown\")",
   "",
   "    logger.info(",
   "        f\"Saving PDF section for paper \x7brequest.paper_id\x7d, \"",
   "        f\"order \x7brequest.section_order\x7d, user \x7buser_id\x7d\"",
   "    )",
   "",
   "    # Prepare the payload",
   "    payload = \x7b",
   "        \"paper_id\": request.paper_id,",
   "        \"title\": request.section_title,",
   "        \"content\": request.section_content,",
   "        \"order\": request.section_order,",
   "        \"user_id\": user_id,",
   "    \x7d",
   "",
   "    # Log encoding info for debugging",
   "    logger.info(f\"Section title: \x7brequest.section_title\x7d\")",
   "    logger.info(f\"Title encoded as UTF-8: \x7brequest.section_title.encode(\x27utf-8\x27)\x7d\")",
   "",
   "    try:",
   "        # ========== CRITICAL: Proper UTF-8 Encoding ==========",
   "        # Use httpx with explicit UTF-8 encoding",
   "        async with httpx.AsyncClient() as client:",
   "            response = await client.post(",
   "                f\"\x7brequest.data_service_url\x7d/api/sections\",",
   "                json=payload,  # httpx automatically uses UTF-8 for json parameter",
   "                headers=\x7b",
   "                    \"Content-Type\": \"application/json; charset=utf-8\",  # Explicit UTF-8",
   "                    \"Accept\": \"application/json\",",
   "                \x7d,",
   "                timeout=30.0,",
   "            )",
   "",
   "            # Check response status",
   "            response.raise_for_status()",
   "",
   "            # Parse response",
   "            response_data = response.json()",
   "            section_id = response_data.get(\"id\") or response_data.get(\"section_id\")",
   "",
   "            logger.info(f\"Successfully saved section \x7bsection_id\x7d\")",
   "",
   "            # Store result in context for tool chaining",
   "            context.set_shared_data(\"last_saved_section_id\", section_id)",
   "            context.set_shared_data(\"last_saved_paper_id\", request.paper_id)",
   "",
   "            return PDFSectionResponse(",
   "                success=True,",
   "                section_id=section_id,",
   "                error=None,",
   "                encoding_used=\"utf-8\",",
   "            )",
   "",
   "    except httpx.HTTPStatusError as e:",
   "        error_msg = f\"HTTP \x7be.response.status_code\x7d: \x7be.response.text\x7d\"",
   "        logger.error(f\"Failed to save section: \x7berror_msg\x7d\")",
   "",
   "        return PDFSectionResponse(",
   "            success=False,",
   "            section_id=None,",
   "            error=error_msg,",
   "            encoding_used=\"utf-8\",",
   "        )",
   "",
   "    except UnicodeEncodeError as e:",
   "        error_msg = f\"Encoding error: \x7bstr(e)\x7d\"",
   "        logger.error(f\"Unicode encoding failed: \x7berror_msg\x7d\")",
   "",
   "        return PDFSectionResponse(",
   "            success=False,",
   "            section_id=None,",
   "            error=error_msg,",
   "            encoding_used=\"utf-8-failed\",",
   "        )",
   "",
   "    except Exception as e:",
   "        error_msg = f\"Unexpected error: \x7bstr(e)\x7d\"",
   "        logger.error(f\"Unexpected error: \x7berror_msg\x7d\", exc_info=True)",
   "",
   "        return PDFSectionResponse(",
   "            success=False,",
   "            section_id=None,",
   "            error=error_msg,",
   "            encoding_used=\"utf-8\",",
   "        )",
   "",
   "",
   "# ==================== Alternative: Using requests library ==========",
   "",
   "\"\"\"",
   "If you need to use the \x27requests\x27 library instead of httpx, here\x27s how:",
   "",
   "import requests",
   "import json",
   "",
   "# WRONG WAY (causes Latin-1 encoding):",
   "response = requests.post(url, data=json.dumps(payload))",
   "",
   "# CORRECT WAY:",
   "response = requests.post(",
   "    url,",
   "    data=json.dumps(payload, ensure_ascii=False).encode(\x27utf-8\x27),",
   "    headers=\x7b\x27Content-Type\x27: \x27application/json; charset=utf-8\x27\x7d",
   ")",
   "",
   "# OR (even better):",
   "response = requests.post(",
   "    url,",
   "    json=payload,  # requests automatically uses UTF-8 when you use \x27json\x27 parameter",
   "    headers=\x7b\x27Content-Type\x27: \x27application/json; charset=utf-8\x27\x7d",
   ")",
   "\"\"\"",
   "",
   ""]

/-- Contents (as lines) of app/tools/__init__.py in the scaffold repository. -/
def tools_init_py : List String :=
  ["\"\"\"",
   "MCP Tools Package",
   "",
   "Import all your tool modules here to ensure they are registered with @oma_tool.",
   "",
   "Example:",
   "    from . import example_tool  # noqa: F401",
   "    from . import another_tool  # noqa: F401",
   "\"\"\"",
   "",
   "# Import your tools here",
   "# Note: tool_router will auto-import this module when tools are discovered/executed",
   "from . import tool_template  # noqa: F401 (enable=False - for reference only)",
   "from . import example_data_service_tool  # noqa: F401 (enable=False - DataServiceClient example)",
   "",
   ""]

/-- Contents (as lines) of app/core/config.py in the scaffold repository. -/
def config_py : List String :=
  ["\"\"\"",
   "MCP Server Configuration",
   "",
   "Inherits from oxsci_shared_core.config.BaseConfig for standard configuration management.",
   "Add MCP-server-specific configurations here.",
   "\"\"\"",
   "",
   "try:",
   "    from oxsci_shared_core.config import base_config as config",
   "except ImportError:",
   "    # Fallback for development without shared-core",
   "    from pydantic_settings import BaseSettings",
   "",
   "    class Config(BaseSettings):",
   "        SERVICE_NAME: str = \"mcp-server-template\"",
   "        ENV: str = \"local\"",
   "",
   "    config = Config()",
   "",
   ""]

/-- Contents (as lines) of app/core/main.py in the scaffold repository. -/
def main_py : List String :=
  ["\"\"\"",
   "MCP Server Main Application",
   "",
   "FastAPI application that serves MCP tools.",
   "\"\"\"",
   "",
   "from fastapi import FastAPI",
   "from fastapi.middleware.cors import CORSMiddleware",
   "import logging",
   "",
   "from oxsci_oma_mcp import tool_router",
   "",
   "from app.core.config import config",
   "",
   "# Configure logging",
   "logging.basicConfig(",
   "    level=logging.INFO,",
   "    format=\"%(asctime)s - %(name)s - %(levelname)s - %(message)s\",",
   ")",
   "logger = logging.getLogger(__name__)",
   "",
   "# Create FastAPI app",
   "app = FastAPI(",
   "    title=f\"\x7bconfig.SERVICE_NAME\x7d MCP Server\",",
   "    description=\"MCP Server built with oxsci-oma-mcp\",",
   "    version=\"1.0.0\",",
   ")",
   "",
   "# Add CORS middleware",
   "app.add_middleware(",
   "    CORSMiddleware,",
   "    allow_origins=[\"*\"],",
   "    allow_credentials=True,",
   "    allow_methods=[\"*\"],",
   "    allow_headers=[\"*\"],",
   ")",
   "",
   "# Include MCP tool router",
   "app.include_router(tool_router)",
   "",
   "# Import tools to trigger @oma_tool registration",
   "# This ensures all tools are registered before the server starts",
   "try:",
   "    from app import tools  # noqa: F401",
   "",
   "    logger.info(\"Tools module imported successfully\")",
   "except ImportError as e:",
   "    logger.warning(f\"Failed to import tools module: \x7be\x7d\")",
   "",
   "",
   "@app.get(\"/\")",
   "async def root():",
   "    \"\"\"Root endpoint\"\"\"",
   "    return \x7b",
   "        \"service\": config.SERVICE_NAME,",
   "        \"status\": \"running\",",
   "        \"protocol\": \"oma-mcp\",",
   "        \"endpoints\": \x7b",
   "            \"discover\": \"/tools/discover\",",
   "            \"list\": \"/tools/list\",",
   "            \"execute\": \"/tools/\x7btool_name\x7d\",",
   "        \x7d,",
   "    \x7d",
   "",
   "",
   "@app.get(\"/health\")",
   "async def health():",
   "    \"\"\"Health check endpoint\"\"\"",
   "    return \x7b",
   "        \"status\": \"healthy\",",
   "        \"service\": config.SERVICE_NAME,",
   "        \"environment\": config.ENV,",
   "    \x7d",
   "",
   "",
   "if __name__ == \"__main__\":",
   "    import uvicorn",
   "",
   "    uvicorn.run(",
   "        \"app.core.main:app\",",
   "        host=\"0.0.0.0\",",
   "        port=8060,",
   "        reload=True,",
   "        log_level=\"info\",",
   "    )",
   "",
   ""]

/-- Contents (as lines) of tests/test_example.py in the scaffold repository. -/
def test_example_py : List String :=
  ["\"\"\"",
   "Example tests for MCP server",
   "\"\"\"",
   "",
   "import pytest",
   "from fastapi.testclient import TestClient",
   "",
   "from app.core.main import app",
   "",
   "",
   "@pytest.fixture",
   "def client():",
   "    \"\"\"Test client fixture\"\"\"",
   "    return TestClient(app)",
   "",
   "",
   "def test_root_endpoint(client):",
   "    \"\"\"Test root endpoint\"\"\"",
   "    response = client.get(\"/\")",
   "    assert response.status_code == 200",
   "    data = response.json()",
   "    assert \"service\" in data",
   "    assert \"status\" in data",
   "    assert data[\"status\"] == \"running\"",
   "",
   "",
   "def test_health_endpoint(client):",
   "    \"\"\"Test health check endpoint\"\"\"",
   "    response = client.get(\"/health\")",
   "    assert response.status_code == 200",
   "    data = response.json()",
   "    assert data[\"status\"] == \"healthy\"",
   "",
   "",
   "def test_discover_tools(client):",
   "    \"\"\"Test tool discovery endpoint\"\"\"",
   "    response = client.get(\"/tools/discover\")",
   "    assert response.status_code == 200",
   "    data = response.json()",
   "    assert \"tools\" in data",
   "    assert \"server_info\" in data",
   "    assert isinstance(data[\"tools\"], list)",
   "",
   "",
   "def test_list_tools(client):",
   "    \"\"\"Test simplified tools list endpoint\"\"\"",
   "    response = client.get(\"/tools/list\")",
   "    assert response.status_code == 200",
   "    data = response.json()",
   "    assert \"tools\" in data",
   "    assert \"count\" in data",
   "    assert isinstance(data[\"tools\"], list)",
   "",
   "",
   "@pytest.mark.asyncio",
   "async def test_example_tool_execution(client):",
   "    \"\"\"Test example tool execution\"\"\"",
   "    response = client.post(",
   "        \"/tools/example_tool\",",
   "        json=\x7b",
   "            \"arguments\": \x7b",
   "                \"input_text\": \"Hello World\",",
   "                \"uppercase\": True,",
   "            \x7d,",
   "            \"context\": \x7b\"user_id\": \"test_user\"\x7d,",
   "        \x7d,",
   "    )",
   "    assert response.status_code == 200",
   "    data = response.json()",
   "    assert data[\"status\"] == \"success\"",
   "    assert \"data\" in data",
   "    assert \"result\" in data[\"data\"]",
   "    assert \"HELLO WORLD\" in data[\"data\"][\"result\"]"]

/-- Modelled from the spec: the scaffold repository ships a package manifest
`pyproject.toml` that is not among the provided sources; per the spec it
contains the literal template project-name string and the literal template
description string that materialization rewrites. -/
def pyproject_toml : List String :=
  ["[tool.poetry]",
   "name = \"mcp-server-template\"",
   "version = \"0.1.0\"",
   "description = \"MCP Server Template built with oxsci-oma-mcp\"",
   ""]

/-- The scaffold template tree, mirroring the repository: `app/` and
`tests/` with their sources; top-level `install.py`, `setup.py` and
`README.md` are in the copy-exclusion list and their contents are never
read by the workflow, so they are abbreviated. -/
def scaffoldTemplate : Template :=
  [("app", .dir [["core"], ["tools"]]
      [(["core", "config.py"], config_py),
       (["core", "main.py"], main_py),
       (["tools", "__init__.py"], tools_init_py),
       (["tools", "example_data_service_tool.py"], example_data_service_tool_py),
       (["tools", "example_tool.py"], example_tool_py),
       (["tools", "pdf_section_saver.py"], pdf_section_saver_py),
       (["tools", "tool_template.py"], tool_template_py)]),
   ("tests", .dir [] [(["test_example.py"], test_example_py)]),
   ("pyproject.toml", .file pyproject_toml),
   ("README.md", .file ["# oxsci-mcp-scaffold", ""]),
   ("install.py", .file ["# installer", ""]),
   ("setup.py", .file ["# setup", ""])]

/-! ## Materialization (install.py 496-669) -/

/-- install.py 510-517: names skipped by the copy loop. -/
def installExclude : List String :=
  ["setup.py", "install.py", ".git", "__pycache__", ".DS_Store", "README.md"]

/-- install.py 570-578: the registration file written for the new tool
(as lines; the written text ends with a newline, hence the trailing
empty line). -/
def initContent (tool_name : String) : List String :=
  ["\"\"\"",
   "MCP Tools Package",
   "",
   "Import all your tool modules here to ensure they are registered with @oma_tool.",
   "\"\"\"",
   "",
   "# Import your tools here",
   "from . import " ++ tool_name ++ "  # noqa: F401",
   ""]

/-- install.py 588-630: the generated README (as lines). -/
def readmeContent (folder_name description tool_name : String) : List String :=
  ["# " ++ folder_name,
   "",
   description,
   "",
   "## Quick Start",
   "",
   "### 1. Configure AWS CodeArtifact",
   "",
   "```bash",
   "./entrypoint-dev.sh",
   "```",
   "",
   "### 2. Install Dependencies",
   "",
   "```bash",
   "poetry install",
   "```",
   "",
   "### 3. Run Server",
   "",
   "```bash",
   "poetry run uvicorn app.core.main:app --reload --port 8060",
   "```",
   "",
   "### 4. Test the Tool",
   "",
   "```bash",
   "# Discover tools",
   "curl http://localhost:8060/tools/discover",
   "",
   "# Execute your tool",
   "curl -X POST http://localhost:8060/tools/" ++ tool_name ++ " \\",
   "  -H \"Content-Type: application/json\" \\",
   "  -d \x27\x7b\"arguments\": \x7b\x7d, \"context\": \x7b\x7d\x7d\x27",
   "```",
   "",
   "## Documentation",
   "",
   "For detailed documentation, see: https://github.com/OxSci-AI/oxsci-mcp-scaffold",
   ""]

/-- install.py 504-639: the body of the `try` block — directory creation,
template copy, pyproject substitution, tool-file creation, template/example
deletion, registration rewrite, config round-trip, README generation and
git initialization. -/
def materialize (tmpl : Template) (folder_name description tool_name : String) : M Unit := do
  let target : FPath := [folder_name]
  mMkdir target
  copyItems target installExclude tmpl
  let pyproject := target ++ ["pyproject.toml"]
  let content ← mRead pyproject
  let content := replaceInLines content "name = \"mcp-server-template\"" ("name = \"" ++ folder_name ++ "\"")
  let content := replaceInLines content "description = \"MCP Server Template built with oxsci-oma-mcp\"" ("description = \"" ++ description ++ "\"")
  mWrite pyproject content
  let ttPath := target ++ ["app", "tools", "tool_template.py"]
  let exPath := target ++ ["app", "tools", "example_tool.py"]
  let toolPath := target ++ ["app", "tools", tool_name ++ ".py"]
  let ttThere ← mExistsPath ttPath
  let templatePath := if ttThere then ttPath else exPath
  let tc ← mRead templatePath
  let tc := replaceInLines tc "example_tool" tool_name
  let tc := replaceInLines tc "ExampleTool" (to_pascal_case tool_name)
  let tc := replaceInLines tc "Example tool that processes text input" (to_pascal_case tool_name ++ " tool")
  mWrite toolPath tc
  if ttThere then
    mUnlink ttPath
  else if tool_name == "example_tool" then
    pure ()
  else do
    let exThere ← mExistsPath exPath
    if exThere then mUnlink exPath else pure ()
  mWrite (target ++ ["app", "tools", "__init__.py"]) (initContent tool_name)
  let cfgPath := target ++ ["app", "core", "config.py"]
  let cfgContent ← mRead cfgPath
  mWrite cfgPath cfgContent
  mWrite (target ++ ["README.md"]) (readmeContent folder_name description tool_name)
  mGit

/-- The observable outcome of `setup_service`, tagged by the way the
function finished. -/
inductive SetupOutcome where
  | done (fs : FS)
  | cancelled (fs : FS)
  | collision (fs : FS)
  | cleaned (fs : FS)
  | exited (code : Nat) (fs : FS)
  | eofErr (fs : FS)
  | intr (fs : FS)
deriving DecidableEq, Repr

/-- install.py 496-669: run the `try` block and the `except Exception`
handler (print, remove the target tree if it exists, return).  A
`KeyboardInterrupt` is not an `Exception` and bypasses the handler. -/
def materializeAndCleanup (tmpl : Template) (folder_name description tool_name : String)
    (orc : Oracle) (fs : FS) : SetupOutcome :=
  match materialize tmpl folder_name description tool_name orc ⟨fs, 0⟩ with
  | .ok _ s => .done s.fs
  | .exc s =>
    .cleaned (if s.fs.pathExists [folder_name] then s.fs.rmtree [folder_name] else s.fs)
  | .intr s => .intr s.fs

/-- install.py 375-669: `setup_service`. -/
def setup_service (service_name tool_name : Option String)
    (skip_confirm skip_env_check : Bool) (env : Env) (orc : Oracle)
    (tmpl : Template) (fs0 : FS) : SetupOutcome :=
  let envRes : Bool × FS :=
    if skip_env_check then (true, fs0) else check_environment env orc fs0
  if !envRes.1 then .exited 1 envRes.2
  else
    let fs1 := envRes.2
    let svcIn : Option String :=
      match service_name with
      | some a => some a
      | none => if env.interactive then some env.promptService else none
    match svcIn with
    | none => .eofErr fs1
    | some rawSvc =>
      let svc := normalize_service_name rawSvc
      if !validate_service_name svc then .exited 1 fs1
      else
        let folder := "mcp-" ++ svc
        let description := "MCP " ++ pyTitle (pyReplace svc "-" " ") ++ " Server"
        let toolIn : Option String :=
          match tool_name with
          | some b => some b
          | none => if env.interactive then some env.promptTool else none
        match toolIn with
        | none => .eofErr fs1
        | some rawTool =>
          let tool := normalize_tool_name rawTool
          if !validate_tool_name tool then .exited 1 fs1
          else
            if !skip_confirm && env.interactive
                && !(pyLower (pyStripWs env.confirmAnswer) == "y") then
              .cancelled fs1
            else
              if fs1.pathExists [folder] then .collision fs1
              else
                if orc.downloadFails then .exited 1 fs1
                else materializeAndCleanup tmpl folder description tool orc fs1

/-- install.py 672-744: `main`.  `parser.error` (missing names with stdin
not a tty) exits with argparse status 2; `KeyboardInterrupt` and `EOFError`
are caught and exit 1; every other return from `setup_service` reaches the
end of `main` and the process exits 0. -/
def main (service_arg tool_arg : Option String) (yes skip_env_check : Bool)
    (env : Env) (orc : Oracle) (tmpl : Template) (fs0 : FS) : Nat × FS :=
  if !env.interactive && (service_arg.isNone || tool_arg.isNone) then (2, fs0)
  else
    match setup_service service_arg tool_arg yes skip_env_check env orc tmpl fs0 with
    | .done fs => (0, fs)
    | .cancelled fs => (0, fs)
    | .collision fs => (0, fs)
    | .cleaned fs => (0, fs)
    | .exited code fs => (code, fs)
    | .eofErr fs => (1, fs)
    | .intr fs => (1, fs)

/-! ## Concrete oracles and environments for the witness runs -/

/-- A run whose only fault is that the probe unlink raises. -/
def orcUnlinkFail : Oracle := ⟨fun _ => false, true, false, none⟩

/-- A run interrupted just before primitive operation `n`. -/
def orcIntrAt (n : Nat) : Oracle := ⟨fun _ => false, false, false, some n⟩

/-- A run where writing to path `p` raises `OSError`. -/
def orcFailWriteAt (p : FPath) : Oracle := ⟨fun q => q == p, false, false, none⟩

/-- A non-interactive environment (stdin is not a tty) with passing checks. -/
def envNonInteractive : Env := ⟨false, true, "", "", ""⟩

/-- An interactive environment that answers `ans` at the confirmation. -/
def envAnswer (ans : String) : Env := ⟨true, true, ans, "", ""⟩

/-- The result state of a concrete successful materialization of the real
scaffold with tool `doc_proc` (used to instantiate the C1 theorem). -/
def c1WitnessSt : St :=
  match materialize scaffoldTemplate "mcp-x" "d" "doc_proc" cleanOracle ⟨emptyFS, 0⟩ with
  | Res.ok _ s => s
  | Res.exc s => s
  | Res.intr s => s

/-- The end-to-end run of the claim C8 scenario: non-interactive invocation
with service name `"Document Processor!"` and tool name `"Doc Proc"`, full
environment check, on the real scaffold template in an empty directory. -/
def c8Run : SetupOutcome :=
  setup_service (some "Document Processor!") (some "Doc Proc") false false
    envNonInteractive cleanOracle scaffoldTemplate emptyFS

/-- The resulting filesystem of the C8 scenario. -/
def c8FS : FS :=
  match c8Run with
  | .done fs => fs
  | .cancelled fs => fs
  | .collision fs => fs
  | .cleaned fs => fs
  | .exited _ fs => fs
  | .eofErr fs => fs
  | .intr fs => fs

/-! ## Sanity instances (spec section 8, properties 3 and 4) -/

theorem normalize_examples :
    normalize_service_name "My Cool Tool!!" = "my-cool-tool" ∧
    normalize_tool_name "My Cool Tool!!" = "my_cool_tool" ∧
    normalize_service_name "123-456" = "service-123-456" ∧
    normalize_tool_name "999" = "tool_999" := by
  refine ⟨?_, ?_, ?_, ?_⟩ <;> decide

/-! ## Character-class facts -/

theorem char_bv_toNat (c : Char) : c.val.toBitVec.toNat = c.toNat := rfl

theorem isLowerAZ_isAlpha {c : Char} (h : isLowerAZ c = true) : c.isAlpha = true := by
  simp [isLowerAZ] at h
  simp [Char.isAlpha, Char.isLower, Char.isUpper, UInt32.le_def, BitVec.le_def, char_bv_toNat]
  omega

theorem allowedSvc_iff (c : Char) :
    allowedSvc c = true ↔
      (97 ≤ c.toNat ∧ c.toNat ≤ 122) ∨ (48 ≤ c.toNat ∧ c.toNat ≤ 57) ∨ c = '-' := by
  simp [allowedSvc, isLowerAZ, isDigit09, beq_iff_eq]
  tauto

theorem allowedTool_iff (c : Char) :
    allowedTool c = true ↔
      (97 ≤ c.toNat ∧ c.toNat ≤ 122) ∨ (48 ≤ c.toNat ∧ c.toNat ≤ 57) ∨ c = '_' := by
  simp [allowedTool, isLowerAZ, isDigit09, beq_iff_eq]
  tauto

theorem allowedSvc_toLower_fix {c : Char} (h : allowedSvc c = true) : c.toLower = c := by
  rw [allowedSvc_iff] at h
  rcases h with h | h | h
  · simp only [Char.toLower]; rw [if_neg]; omega
  · simp only [Char.toLower]; rw [if_neg]; omega
  · subst h; decide

theorem allowedTool_toLower_fix {c : Char} (h : allowedTool c = true) : c.toLower = c := by
  rw [allowedTool_iff] at h
  rcases h with h | h | h
  · simp only [Char.toLower]; rw [if_neg]; omega
  · simp only [Char.toLower]; rw [if_neg]; omega
  · subst h; decide

theorem allowedSvc_not_ws {c : Char} (h : allowedSvc c = true) : c.isWhitespace = false := by
  rw [allowedSvc_iff] at h
  rcases h with h | h | h
  · simp only [Char.isWhitespace]
    have h1 : ¬ c = ' ' := fun he => absurd h (by rw [he]; decide)
    have h2 : ¬ c = '\t' := fun he => absurd h (by rw [he]; decide)
    have h3 : ¬ c = '\x0d' := fun he => absurd h (by rw [he]; decide)
    have h4 : ¬ c = '\n' := fun he => absurd h (by rw [he]; decide)
    simp [h1, h2, h3, h4]
  · simp only [Char.isWhitespace]
    have h1 : ¬ c = ' ' := fun he => absurd h (by rw [he]; decide)
    have h2 : ¬ c = '\t' := fun he => absurd h (by rw [he]; decide)
    have h3 : ¬ c = '\x0d' := fun he => absurd h (by rw [he]; decide)
    have h4 : ¬ c = '\n' := fun he => absurd h (by rw [he]; decide)
    simp [h1, h2, h3, h4]
  · subst h; decide

theorem allowedTool_not_ws {c : Char} (h : allowedTool c = true) : c.isWhitespace = false := by
  rw [allowedTool_iff] at h
  rcases h with h | h | h
  · simp only [Char.isWhitespace]
    have h1 : ¬ c = ' ' := fun he => absurd h (by rw [he]; decide)
    have h2 : ¬ c = '\t' := fun he => absurd h (by rw [he]; decide)
    have h3 : ¬ c = '\x0d' := fun he => absurd h (by rw [he]; decide)
    have h4 : ¬ c = '\n' := fun he => absurd h (by rw [he]; decide)
    simp [h1, h2, h3, h4]
  · simp only [Char.isWhitespace]
    have h1 : ¬ c = ' ' := fun he => absurd h (by rw [he]; decide)
    have h2 : ¬ c = '\t' := fun he => absurd h (by rw [he]; decide)
    have h3 : ¬ c = '\x0d' := fun he => absurd h (by rw [he]; decide)
    have h4 : ¬ c = '\n' := fun he => absurd h (by rw [he]; decide)
    simp [h1, h2, h3, h4]
  · subst h; decide

theorem allowedSvc_isAlpha_lower {c : Char} (h : allowedSvc c = true)
    (ha : c.isAlpha = true) : isLowerAZ c = true := by
  rw [allowedSvc_iff] at h
  simp [Char.isAlpha, Char.isLower, Char.isUpper, UInt32.le_def, BitVec.le_def,
    char_bv_toNat] at ha
  simp only [isLowerAZ, Bool.and_eq_true, decide_eq_true_eq]
  rcases h with h | h | h
  · omega
  · omega
  · subst h; exact absurd ha (by decide)

theorem allowedTool_isAlpha_lower {c : Char} (h : allowedTool c = true)
    (ha : c.isAlpha = true) : isLowerAZ c = true := by
  rw [allowedTool_iff] at h
  simp [Char.isAlpha, Char.isLower, Char.isUpper, UInt32.le_def, BitVec.le_def,
    char_bv_toNat] at ha
  simp only [isLowerAZ, Bool.and_eq_true, decide_eq_true_eq]
  rcases h with h | h | h
  · omega
  · omega
  · subst h; exact absurd ha (by decide)

/-! ## Pipeline lemmas: substitution, collapsing, stripping -/

theorem subRuns_cons_allowed {allowed : Char → Bool} {sep c : Char} (h : allowed c = true)
    (cs : List Char) (b : Bool) :
    subRuns allowed sep (c :: cs) b = c :: subRuns allowed sep cs false := by
  simp [subRuns, h]

theorem subRuns_cons_dis_true {allowed : Char → Bool} {sep c : Char} (h : ¬ allowed c = true)
    (cs : List Char) :
    subRuns allowed sep (c :: cs) true = subRuns allowed sep cs true := by
  simp [subRuns, h]

theorem subRuns_cons_dis_false {allowed : Char → Bool} {sep c : Char} (h : ¬ allowed c = true)
    (cs : List Char) :
    subRuns allowed sep (c :: cs) false = sep :: subRuns allowed sep cs true := by
  simp [subRuns, h]

theorem collapseRuns_cons_sep_true (sep : Char) (cs : List Char) :
    collapseRuns sep (sep :: cs) true = collapseRuns sep cs true := by
  simp [collapseRuns]

theorem collapseRuns_cons_sep_false (sep : Char) (cs : List Char) :
    collapseRuns sep (sep :: cs) false = sep :: collapseRuns sep cs true := by
  simp [collapseRuns]

theorem collapseRuns_cons_ne {sep c : Char} (h : ¬ c = sep) (cs : List Char) (b : Bool) :
    collapseRuns sep (c :: cs) b = c :: collapseRuns sep cs false := by
  simp [collapseRuns, h]

theorem subRuns_all {allowed : Char → Bool} {sep : Char} (hsep : allowed sep = true) :
    ∀ (l : List Char) (b : Bool), (subRuns allowed sep l b).all allowed = true := by
  intro l
  induction l with
  | nil => intro b; rfl
  | cons c cs ih =>
    intro b
    by_cases hc : allowed c = true
    · rw [subRuns_cons_allowed hc]
      simp [hc, ih false]
    · cases b with
      | true => rw [subRuns_cons_dis_true hc]; exact ih true
      | false => rw [subRuns_cons_dis_false hc]; simp [hsep, ih true]

theorem subRuns_id {allowed : Char → Bool} {sep : Char} :
    ∀ (l : List Char) (b : Bool), l.all allowed = true → subRuns allowed sep l b = l := by
  intro l
  induction l with
  | nil => intro b _; rfl
  | cons c cs ih =>
    intro b h
    simp only [List.all_cons, Bool.and_eq_true] at h
    rw [subRuns_cons_allowed h.1, ih false h.2]

theorem collapseRuns_all {allowed : Char → Bool} {sep : Char} :
    ∀ (l : List Char) (b : Bool), l.all allowed = true →
      (collapseRuns sep l b).all allowed = true := by
  intro l
  induction l with
  | nil => intro b _; rfl
  | cons c cs ih =>
    intro b h
    simp only [List.all_cons, Bool.and_eq_true] at h
    by_cases hc : c = sep
    · subst hc
      cases b with
      | true => rw [collapseRuns_cons_sep_true]; exact ih true h.2
      | false =>
        rw [collapseRuns_cons_sep_false]
        simp [h.1, ih true h.2]
    · rw [collapseRuns_cons_ne hc]
      simp [h.1, ih false h.2]

theorem collapseRuns_noRun {sep : Char} :
    ∀ (l : List Char) (b : Bool),
      NoRun sep (collapseRuns sep l b) ∧
      (b = true → ∀ x, (collapseRuns sep l b).head? = some x → ¬ x = sep) := by
  intro l
  induction l with
  | nil => intro b; exact ⟨List.chain'_nil, by intro _ x hx; simp [collapseRuns] at hx⟩
  | cons c cs ih =>
    intro b
    by_cases hc : c = sep
    · subst hc
      cases b with
      | true =>
        rw [collapseRuns_cons_sep_true]
        exact ih true
      | false =>
        rw [collapseRuns_cons_sep_false]
        constructor
        · rw [NoRun, List.chain'_cons']
          refine ⟨?_, (ih true).1⟩
          intro y hy
          exact fun hxy => (ih true).2 rfl y (Option.mem_def.mp hy) hxy.2
        · intro hb; cases hb
    · rw [collapseRuns_cons_ne hc]
      constructor
      · rw [NoRun, List.chain'_cons']
        refine ⟨?_, (ih false).1⟩
        intro y _
        exact fun hxy => hc hxy.1
      · intro _ x hx
        simp only [List.head?_cons, Option.some.injEq] at hx
        subst hx
        exact hc

theorem collapseRuns_id {sep : Char} :
    ∀ (l : List Char) (b : Bool), NoRun sep l →
      (b = true → ∀ x, l.head? = some x → ¬ x = sep) → collapseRuns sep l b = l := by
  intro l
  induction l with
  | nil => intro b _ _; rfl
  | cons c cs ih =>
    intro b hnr hb
    by_cases hc : c = sep
    · subst hc
      cases b with
      | true => exact absurd rfl (hb rfl c List.head?_cons)
      | false =>
        rw [collapseRuns_cons_sep_false]
        congr 1
        rw [NoRun, List.chain'_cons'] at hnr
        refine ih true hnr.2 ?_
        intro _ x hx hxs
        exact hnr.1 x (Option.mem_def.mpr hx) ⟨rfl, hxs⟩
    · rw [collapseRuns_cons_ne hc]
      congr 1
      rw [NoRun, List.chain'_cons'] at hnr
      exact ih false hnr.2 (by intro h; cases h)

/-! ## Strip and dropWhile lemmas -/

theorem all_of_sublist {q : Char → Bool} {l₁ l₂ : List Char} (hs : l₁.Sublist l₂)
    (h : l₂.all q = true) : l₁.all q = true := by
  rw [List.all_eq_true] at *
  exact fun x hx => h x (hs.subset hx)

theorem dropWhile_eq_self {p : Char → Bool} :
    ∀ {l : List Char} {d : Char}, l.head? = some d → p d = false → l.dropWhile p = l := by
  intro l d hh hp
  cases l with
  | nil => rfl
  | cons c cs =>
    simp only [List.head?_cons, Option.some.injEq] at hh
    subst hh
    simp [List.dropWhile_cons, hp]

theorem getLast?_of_ne_nil {l : List Char} (h : l ≠ []) : ∃ a, l.getLast? = some a := by
  rcases List.eq_nil_or_concat l with rfl | ⟨t, a, rfl⟩
  · exact absurd rfl h
  · exact ⟨a, by rw [List.concat_eq_append]; exact List.getLast?_concat t⟩

theorem getLast?_of_suffix {l₁ l₂ : List Char} (hs : l₁ <:+ l₂) (h : l₁ ≠ []) :
    l₁.getLast? = l₂.getLast? := by
  obtain ⟨t, rfl⟩ := hs
  obtain ⟨a, ha⟩ := getLast?_of_ne_nil h
  rw [List.getLast?_append, ha]
  rfl

theorem head_dropWhile_not {p : Char → Bool} {l : List Char} {c : Char} {cs : List Char}
    (h : l.dropWhile p = c :: cs) : p c = false := by
  have := List.head?_dropWhile_not p l
  rw [h] at this
  simpa using this

theorem dropWhile_first {q : Char → Bool} :
    ∀ {l : List Char}, l.any q = true →
      ∃ c cs, l.dropWhile (fun d => !(q d)) = c :: cs ∧ q c = true := by
  intro l h
  induction l with
  | nil => cases h
  | cons c cs ih =>
    by_cases hc : q c = true
    · exact ⟨c, cs, by simp [List.dropWhile_cons, hc], hc⟩
    · simp only [List.any_cons, Bool.or_eq_true] at h
      rcases h with h | h
      · exact absurd h hc
      · obtain ⟨d, ds, hd, hq⟩ := ih h
        exact ⟨d, ds, by simp [List.dropWhile_cons, hc, hd], hq⟩

theorem map_id_of_mem {f : Char → Char} :
    ∀ {l : List Char}, (∀ x ∈ l, f x = x) → l.map f = l := by
  intro l h
  induction l with
  | nil => rfl
  | cons c cs ih =>
    simp only [List.map_cons]
    rw [h c (by simp), ih (fun x hx => h x (by simp [hx]))]

theorem noRun_reverse {sep : Char} {l : List Char} (h : NoRun sep l) : NoRun sep l.reverse := by
  rw [NoRun, List.chain'_reverse]
  exact h.imp (fun a b hab => fun hx => hab ⟨hx.2, hx.1⟩)

theorem noRun_dropWhile {sep : Char} {p : Char → Bool} {l : List Char} (h : NoRun sep l) :
    NoRun sep (l.dropWhile p) := by
  exact List.Chain'.suffix h (List.dropWhile_suffix p)

theorem stripEnds_all {p q : Char → Bool} {l : List Char} (h : l.all q = true) :
    (stripEnds p l).all q = true := by
  rw [stripEnds]
  rw [List.all_reverse]
  refine all_of_sublist (List.dropWhile_suffix p).sublist ?_
  rw [List.all_reverse]
  exact all_of_sublist (List.dropWhile_suffix p).sublist h

theorem stripEnds_noRun {p : Char → Bool} {sep : Char} {l : List Char} (h : NoRun sep l) :
    NoRun sep (stripEnds p l) := by
  exact noRun_reverse (noRun_dropWhile (noRun_reverse (noRun_dropWhile h)))

theorem stripEnds_head_not {p : Char → Bool} {l : List Char} {c : Char} {cs : List Char}
    (h : stripEnds p l = c :: cs) : p c = false := by
  rw [stripEnds] at h
  have h2ne : (l.dropWhile p).reverse.dropWhile p ≠ [] := by
    intro he
    rw [he] at h
    cases h
  have hhead : ((l.dropWhile p).reverse.dropWhile p).reverse.head? = some c := by
    rw [h]; rfl
  rw [List.head?_reverse] at hhead
  rw [getLast?_of_suffix (List.dropWhile_suffix p) h2ne, List.getLast?_reverse] at hhead
  cases hl : l.dropWhile p with
  | nil => rw [hl] at hhead; cases hhead
  | cons d ds =>
    rw [hl] at hhead
    simp only [List.head?_cons, Option.some.injEq] at hhead
    subst hhead
    exact head_dropWhile_not hl

theorem stripEnds_last_not {p : Char → Bool} {l : List Char} {c : Char}
    (h : (stripEnds p l).getLast? = some c) : p c = false := by
  rw [stripEnds, List.getLast?_reverse] at h
  cases hl : (l.dropWhile p).reverse.dropWhile p with
  | nil => rw [hl] at h; cases h
  | cons d ds =>
    rw [hl] at h
    simp only [List.head?_cons, Option.some.injEq] at h
    subst h
    exact head_dropWhile_not hl

theorem stripEnds_id {p : Char → Bool} {l : List Char}
    (hh : ∀ c cs, l = c :: cs → p c = false)
    (hl : ∀ c, l.getLast? = some c → p c = false) :
    stripEnds p l = l := by
  cases l with
  | nil => rfl
  | cons c cs =>
    rw [stripEnds]
    rw [dropWhile_eq_self (l := c :: cs) rfl (hh c cs rfl)]
    obtain ⟨a, ha⟩ := getLast?_of_ne_nil (l := c :: cs) (by simp)
    rw [dropWhile_eq_self (by rw [List.head?_reverse]; exact ha) (hl a ha), List.reverse_reverse]

/-! ## Soundness of the boolean canonical-form checks -/

theorem mem_of_getLast {l : List Char} {a : Char} (h : l.getLast? = some a) : a ∈ l := by
  rcases List.eq_nil_or_concat l with rfl | ⟨t, b, rfl⟩
  · cases h
  · rw [List.concat_eq_append, List.getLast?_concat] at h
    simp only [Option.some.injEq] at h
    subst h
    simp

theorem lowHead_sound {l : List Char} (h : lowHead l = true) :
    ∀ c cs, l = c :: cs → isLowerAZ c = true := by
  intro c cs hcc
  subst hcc
  exact h

theorem noRunB_sound {sep : Char} : ∀ {l : List Char}, noRunB sep l = true → NoRun sep l := by
  intro l
  induction l with
  | nil => intro _; exact List.chain'_nil
  | cons a t ih =>
    cases t with
    | nil => intro _; exact List.chain'_singleton a
    | cons b r =>
      intro h
      simp only [noRunB, Bool.and_eq_true, Bool.not_eq_true'] at h
      rw [NoRun, List.chain'_cons]
      refine ⟨?_, ih (by simp [noRunB, h.2])⟩
      intro hab
      rw [hab.1, hab.2] at h
      simp at h

theorem lastNotSep_sound {sep : Char} {l : List Char} (h : lastNotSep sep l = true) :
    ∀ c, l.getLast? = some c → ¬ c = sep := by
  intro c hc he
  rw [lastNotSep, hc] at h
  subst he
  simp at h

theorem canonForm_of_checks {allowed : Char → Bool} {sep : Char} {l : List Char}
    (h1 : lowHead l = true) (h2 : l.all allowed = true) (h3 : noRunB sep l = true)
    (h4 : lastNotSep sep l = true) : CanonForm allowed sep l := by
  refine ⟨?_, lowHead_sound h1, h2, noRunB_sound h3, lastNotSep_sound h4⟩
  intro he
  rw [he] at h1
  cases h1

/-! ## The normalizers produce canonical forms -/

theorem forceLeadingLetter_canon {allowed : Char → Bool} {sep : Char} {pre : List Char}
    (halpha : ∀ c, allowed c = true → c.isAlpha = true → isLowerAZ c = true)
    (hpreNe : pre ≠ [])
    (hpreHead : ∀ c cs, pre = c :: cs → isLowerAZ c = true)
    (hpreAll : pre.all allowed = true)
    (hpreRun : NoRun sep pre)
    {l : List Char}
    (hall : l.all allowed = true) (hrun : NoRun sep l)
    (hlast : ∀ c, l.getLast? = some c → ¬ c = sep)
    (hheadne : ∀ c cs, l = c :: cs → ¬ c = sep)
    (hne : l ≠ []) :
    CanonForm allowed sep (forceLeadingLetter pre l) := by
  cases l with
  | nil => exact absurd rfl hne
  | cons c cs =>
    have hcall : allowed c = true := by
      have := List.all_eq_true.mp hall c (by simp)
      exact this
    by_cases hca : c.isAlpha = true
    · rw [forceLeadingLetter, if_pos hca]
      refine ⟨by simp, ?_, hall, hrun, hlast⟩
      intro c' cs' h
      injection h with h1 _
      subst h1
      exact halpha c hcall hca
    · rw [forceLeadingLetter, if_neg hca]
      by_cases hany : (c :: cs).any isLowerAZ = true
      · rw [if_pos hany]
        obtain ⟨d, ds, hd, hq⟩ := dropWhile_first hany
        rw [hd]
        have hsuf : d :: ds <:+ c :: cs := hd ▸ List.dropWhile_suffix _
        refine ⟨by simp, ?_, ?_, ?_, ?_⟩
        · intro c' cs' h
          injection h with h1 _
          subst h1
          exact hq
        · exact all_of_sublist hsuf.sublist hall
        · exact hd ▸ noRun_dropWhile hrun
        · intro a ha
          rw [getLast?_of_suffix hsuf (by simp)] at ha
          exact hlast a ha
      · rw [if_neg hany]
        cases pre with
        | nil => exact absurd rfl hpreNe
        | cons p0 ps =>
          refine ⟨by simp, ?_, ?_, ?_, ?_⟩
          · intro c' cs' h
            rw [List.cons_append] at h
            injection h with h1 _
            subst h1
            exact hpreHead p0 ps rfl
          · rw [List.all_append]
            simp [hpreAll, hall]
          · rw [NoRun, List.chain'_append]
            refine ⟨hpreRun, hrun, ?_⟩
            intro x _ y hy hxy
            simp only [List.head?_cons, Option.mem_def, Option.some.injEq] at hy
            exact hheadne c cs rfl (hy ▸ hxy.2)
          · intro a ha
            obtain ⟨b, hb⟩ := getLast?_of_ne_nil (l := c :: cs) (by simp)
            rw [List.getLast?_append, hb] at ha
            have hab : b = a := by simpa [Option.or] using ha
            subst hab
            exact hlast b hb

theorem normalizeCore_canon_aux {allowed : Char → Bool} {sep : Char} {pre dflt : List Char}
    (halpha : ∀ c, allowed c = true → c.isAlpha = true → isLowerAZ c = true)
    (hpreNe : pre ≠ [])
    (hpreHead : ∀ c cs, pre = c :: cs → isLowerAZ c = true)
    (hpreAll : pre.all allowed = true)
    (hpreRun : NoRun sep pre)
    (hdflt : CanonForm allowed sep dflt)
    (m : List Char)
    (hall : m.all allowed = true) (hrun : NoRun sep m)
    (hlast : ∀ c, m.getLast? = some c → ¬ c = sep)
    (hheadne : ∀ c cs, m = c :: cs → ¬ c = sep) :
    CanonForm allowed sep
      (if forceLeadingLetter pre m = [] then dflt else forceLeadingLetter pre m) := by
  cases m with
  | nil => rw [forceLeadingLetter]; exact hdflt
  | cons c cs =>
    have hcanon := forceLeadingLetter_canon halpha hpreNe hpreHead hpreAll hpreRun
      hall hrun hlast hheadne (List.cons_ne_nil c cs)
    rw [if_neg hcanon.nonempty]
    exact hcanon

theorem normalizeCore_canon {allowed : Char → Bool} {sep : Char} {pre dflt : List Char}
    (hsep : allowed sep = true)
    (halpha : ∀ c, allowed c = true → c.isAlpha = true → isLowerAZ c = true)
    (hpreNe : pre ≠ [])
    (hpreHead : ∀ c cs, pre = c :: cs → isLowerAZ c = true)
    (hpreAll : pre.all allowed = true)
    (hpreRun : NoRun sep pre)
    (hdflt : CanonForm allowed sep dflt)
    (s : List Char) :
    CanonForm allowed sep (normalizeCore allowed sep pre dflt s) := by
  simp only [normalizeCore]
  refine normalizeCore_canon_aux halpha hpreNe hpreHead hpreAll hpreRun hdflt _
    (stripEnds_all (collapseRuns_all _ false (subRuns_all hsep _ false)))
    (stripEnds_noRun (collapseRuns_noRun _ false).1)
    ?_ ?_
  · intro a ha
    have := stripEnds_last_not ha
    simpa using this
  · intro a as ha
    have := stripEnds_head_not ha
    simpa using this

theorem normalizeCore_fix {allowed : Char → Bool} {sep : Char} {pre dflt : List Char}
    (hlow : ∀ c, allowed c = true → c.toLower = c)
    (hnws : ∀ c, allowed c = true → c.isWhitespace = false)
    (hsepNotLow : isLowerAZ sep = false)
    {l : List Char} (hc : CanonForm allowed sep l) :
    normalizeCore allowed sep pre dflt l = l := by
  have hmem := List.all_eq_true.mp hc.allA
  have h0 : l.map Char.toLower = l := map_id_of_mem (fun x hx => hlow x (hmem x hx))
  have h1 : stripEnds Char.isWhitespace l = l := by
    refine stripEnds_id ?_ ?_
    · intro a as ha
      exact hnws a (hmem a (by rw [ha]; simp))
    · intro a ha
      exact hnws a (hmem a (mem_of_getLast ha))
  have h2 : subRuns allowed sep l false = l := subRuns_id l false hc.allA
  have h3 : collapseRuns sep l false = l := collapseRuns_id l false hc.noRun (by intro h; cases h)
  have h4 : stripEnds (fun c => c == sep) l = l := by
    refine stripEnds_id ?_ ?_
    · intro a as ha
      have hla := hc.headLow a as ha
      simp only [beq_eq_false_iff_ne, ne_eq]
      intro he
      rw [he, hsepNotLow] at hla
      cases hla
    · intro a ha
      simp only [beq_eq_false_iff_ne, ne_eq]
      exact hc.lastNe a ha
  have h5 : forceLeadingLetter pre l = l := by
    cases hl : l with
    | nil => rfl
    | cons a as =>
      have hca : a.isAlpha = true := isLowerAZ_isAlpha (hc.headLow a as hl)
      rw [forceLeadingLetter, if_pos hca]
  simp only [normalizeCore, h0, h1, h2, h3, h4, h5]
  rw [if_neg hc.nonempty]

/-! ## Instantiations for the two namespaces -/

theorem canon_service (s : List Char) :
    CanonForm allowedSvc '-' (normalizeCore allowedSvc '-' "service-".data "service".data s) := by
  refine normalizeCore_canon (by decide) (fun c => allowedSvc_isAlpha_lower) (by decide)
    (lowHead_sound (by decide)) (by decide) (noRunB_sound (by decide))
    (canonForm_of_checks (by decide) (by decide) (by decide) (by decide)) s

theorem canon_tool (s : List Char) :
    CanonForm allowedTool '_' (normalizeCore allowedTool '_' "tool_".data "tool".data s) := by
  refine normalizeCore_canon (by decide) (fun c => allowedTool_isAlpha_lower) (by decide)
    (lowHead_sound (by decide)) (by decide) (noRunB_sound (by decide))
    (canonForm_of_checks (by decide) (by decide) (by decide) (by decide)) s

theorem fix_service {l : List Char} (hc : CanonForm allowedSvc '-' l) :
    normalizeCore allowedSvc '-' "service-".data "service".data l = l :=
  normalizeCore_fix (fun c => allowedSvc_toLower_fix) (fun c => allowedSvc_not_ws)
    (by decide) hc

theorem fix_tool {l : List Char} (hc : CanonForm allowedTool '_' l) :
    normalizeCore allowedTool '_' "tool_".data "tool".data l = l :=
  normalizeCore_fix (fun c => allowedTool_toLower_fix) (fun c => allowedTool_not_ws)
    (by decide) hc

theorem matchesClass_of_canon {allowed : Char → Bool} {sep : Char} {l : List Char}
    (hc : CanonForm allowed sep l) : matchesClass allowed l = true := by
  cases hl : l with
  | nil => exact absurd hl hc.nonempty
  | cons c cs =>
    have := hc.allA
    rw [hl, List.all_cons, Bool.and_eq_true] at this
    simp [matchesClass, hc.headLow c cs hl, this.2]

/-! ## Claims C3 and C4 -/

/-- C3: for every input string (including empty, whitespace-only, all-symbol
and letterless strings) and each namespace, normalization returns a non-empty
string matching the namespace regex: `^[a-z][a-z0-9-]*$` for
`normalize_service_name` and `^[a-z][a-z0-9_]*$` for `normalize_tool_name`
(the validators embed exactly these regexes). -/
theorem claim_C3_normalize_total (s : String) :
    (normalize_service_name s ≠ "" ∧
      validate_service_name (normalize_service_name s) = true) ∧
    (normalize_tool_name s ≠ "" ∧
      validate_tool_name (normalize_tool_name s) = true) := by
  have hs := canon_service s.data
  have ht := canon_tool s.data
  refine ⟨⟨?_, matchesClass_of_canon hs⟩, ⟨?_, matchesClass_of_canon ht⟩⟩
  · intro h
    exact hs.nonempty (congrArg String.data h)
  · intro h
    exact ht.nonempty (congrArg String.data h)

/-- C4: normalization is idempotent in both namespaces: normalizing the
result of normalization yields the same value, i.e. every output of
`normalize_service_name` / `normalize_tool_name` is a fixed point. -/
theorem claim_C4_normalize_idempotent (s : String) :
    normalize_service_name (normalize_service_name s) = normalize_service_name s ∧
    normalize_tool_name (normalize_tool_name s) = normalize_tool_name s :=
  ⟨congrArg String.mk (fix_service (canon_service s.data)),
   congrArg String.mk (fix_tool (canon_tool s.data))⟩

/-! ## Filesystem lemmas -/

theorem fpathUnder_refl : ∀ p : FPath, fpathUnder p p = true := by
  intro p
  induction p with
  | nil => rfl
  | cons a as ih => simp [fpathUnder, ih]

theorem rmtree_pathExists_self (fs : FS) (p : FPath) :
    (fs.rmtree p).pathExists p = false := by
  simp only [FS.pathExists, FS.rmtree, FS.isFile, FS.isDir, Bool.or_eq_false_iff]
  constructor
  · rw [List.any_eq_false]
    intro e he
    rw [List.mem_filter] at he
    intro hbe
    rw [beq_iff_eq] at hbe
    rw [← hbe] at he
    simp [fpathUnder_refl] at he
  · rw [List.any_eq_false]
    intro d hd
    rw [List.mem_filter] at hd
    intro hbd
    rw [beq_iff_eq] at hbd
    rw [← hbd] at hd
    simp [fpathUnder_refl] at hd

theorem find?_filter_ne {l : List (FPath × List String)} {p q : FPath} (h : ¬ p = q) :
    (l.filter (fun e => !(e.1 == q))).find? (fun e => e.1 == p) =
      l.find? (fun e => e.1 == p) := by
  induction l with
  | nil => rfl
  | cons e rest ih =>
    by_cases he : e.1 = q
    · have h1 : (e.1 == q) = true := by rw [beq_iff_eq]; exact he
      have h2 : (e.1 == p) = false := by
        rw [beq_eq_false_iff_ne]
        intro hp
        exact h (by rw [← hp, he])
      simp [List.filter_cons, h1, List.find?_cons, h2, ih]
    · have h1 : (e.1 == q) = false := by rwa [beq_eq_false_iff_ne]
      by_cases hp : e.1 = p
      · have h2 : (e.1 == p) = true := by rw [beq_iff_eq]; exact hp
        simp [List.filter_cons, h1, List.find?_cons, h2]
      · have h2 : (e.1 == p) = false := by rwa [beq_eq_false_iff_ne]
        simp [List.filter_cons, h1, List.find?_cons, h2, ih]

theorem read_write_same (fs : FS) (p : FPath) (content : List String) :
    (fs.write p content).read p = some content := by
  simp [FS.read, FS.write, List.find?_cons]

theorem read_write_ne (fs : FS) {p q : FPath} (content : List String) (h : ¬ p = q) :
    (fs.write q content).read p = fs.read p := by
  have hq : (q == p) = false := by
    rw [beq_eq_false_iff_ne]
    intro he
    exact h he.symm
  simp only [FS.read, FS.write, List.find?_cons, hq]
  rw [find?_filter_ne h]

theorem isFile_write_same (fs : FS) (p : FPath) (content : List String) :
    (fs.write p content).isFile p = true := by
  simp [FS.isFile, FS.write, List.any_cons]

theorem isFile_write_ne (fs : FS) {p q : FPath} (content : List String) (h : ¬ p = q) :
    (fs.write q content).isFile p = fs.isFile p := by
  have hq : (q == p) = false := by
    rw [beq_eq_false_iff_ne]
    intro he
    exact h he.symm
  simp only [FS.isFile, FS.write, List.any_cons, hq, Bool.false_or]
  induction fs.files with
  | nil => rfl
  | cons e rest ih =>
    by_cases he : e.1 = q
    · have h1 : (e.1 == q) = true := by rw [beq_iff_eq]; exact he
      have h2 : (e.1 == p) = false := by
        rw [beq_eq_false_iff_ne]
        intro hp
        exact h (by rw [← hp, he])
      simp [List.filter_cons, h1, List.any_cons, h2, ih]
    · have h1 : (e.1 == q) = false := by rwa [beq_eq_false_iff_ne]
      simp [List.filter_cons, h1, List.any_cons, ih]

theorem isFile_unlink_self (fs : FS) (p : FPath) : (fs.unlink p).isFile p = false := by
  simp only [FS.isFile, FS.unlink]
  rw [List.any_eq_false]
  intro e he
  rw [List.mem_filter] at he
  intro hbe
  rw [hbe] at he
  simp at he

theorem isFile_unlink_ne (fs : FS) {p q : FPath} (h : ¬ p = q) :
    (fs.unlink q).isFile p = fs.isFile p := by
  simp only [FS.isFile, FS.unlink]
  induction fs.files with
  | nil => rfl
  | cons e rest ih =>
    by_cases he : e.1 = q
    · have h1 : (e.1 == q) = true := by rw [beq_iff_eq]; exact he
      have h2 : (e.1 == p) = false := by
        rw [beq_eq_false_iff_ne]
        intro hp
        exact h (by rw [← hp, he])
      simp [List.filter_cons, h1, List.any_cons, h2, ih]
    · have h1 : (e.1 == q) = false := by rwa [beq_eq_false_iff_ne]
      simp [List.filter_cons, h1, List.any_cons, ih]

theorem read_unlink_ne (fs : FS) {p q : FPath} (h : ¬ p = q) :
    (fs.unlink q).read p = fs.read p := by
  simp only [FS.read, FS.unlink]
  rw [find?_filter_ne h]

/-! ## Decomposition lemmas for the effect monad -/

theorem bind_ok {α β : Type} {m : M α} {k : α → M β} {orc : Oracle} {s : St} {b : β}
    {s'' : St} (h : (m >>= k) orc s = .ok b s'') :
    ∃ a s', m orc s = .ok a s' ∧ k a orc s' = .ok b s'' := by
  have hb : (m >>= k) orc s =
      match m orc s with
      | .ok a s' => k a orc s'
      | .exc s' => Res.exc s'
      | .intr s' => Res.intr s' := rfl
  cases hm : m orc s with
  | ok a s' =>
    rw [hb, hm] at h
    exact ⟨a, s', rfl, h⟩
  | exc s' => rw [hb, hm] at h; cases h
  | intr s' => rw [hb, hm] at h; cases h

theorem prim_ok {α : Type} {f : Oracle → FS → Except Unit (α × FS)} {orc : Oracle}
    {s : St} {a : α} {s' : St} (h : prim f orc s = .ok a s') :
    ∃ fs', s' = ⟨fs', s.ops + 1⟩ ∧ f orc s.fs = .ok (a, fs') := by
  rw [prim] at h
  by_cases hi : orc.intrAt = some s.ops
  · rw [if_pos hi] at h; cases h
  · rw [if_neg hi] at h
    cases hf : f orc s.fs with
    | ok p =>
      obtain ⟨a', fs'⟩ := p
      rw [hf] at h
      injection h with h1 h2
      subst h1
      exact ⟨fs', h2.symm, rfl⟩
    | error e => rw [hf] at h; cases h

theorem mWrite_ok {p : FPath} {content : List String} {orc : Oracle} {s : St} {a : Unit}
    {s' : St} (h : mWrite p content orc s = .ok a s') :
    s' = ⟨s.fs.write p content, s.ops + 1⟩ := by
  obtain ⟨fs', hs, hf⟩ := prim_ok h
  by_cases hw : orc.failWrite p
  · rw [if_pos hw] at hf; cases hf
  · rw [if_neg hw] at hf
    injection hf with h1
    injection h1 with _ h2
    rw [hs, ← h2]

theorem mMkdir_ok {p : FPath} {orc : Oracle} {s : St} {a : Unit} {s' : St}
    (h : mMkdir p orc s = .ok a s') : s' = ⟨s.fs.mkdir p, s.ops + 1⟩ := by
  obtain ⟨fs', hs, hf⟩ := prim_ok h
  by_cases hw : orc.failWrite p
  · rw [if_pos hw] at hf; cases hf
  · rw [if_neg hw] at hf
    injection hf with h1
    injection h1 with _ h2
    rw [hs, ← h2]

theorem mRead_ok {p : FPath} {orc : Oracle} {s : St} {a : List String} {s' : St}
    (h : mRead p orc s = .ok a s') : s' = ⟨s.fs, s.ops + 1⟩ ∧ s.fs.read p = some a := by
  obtain ⟨fs', hs, hf⟩ := prim_ok h
  cases hr : s.fs.read p with
  | some content =>
    rw [hr] at hf
    injection hf with h1
    injection h1 with h2 h3
    subst h2
    rw [hs, ← h3]
    exact ⟨rfl, rfl⟩
  | none => rw [hr] at hf; cases hf

theorem mUnlink_ok {p : FPath} {orc : Oracle} {s : St} {a : Unit} {s' : St}
    (h : mUnlink p orc s = .ok a s') :
    s' = ⟨s.fs.unlink p, s.ops + 1⟩ ∧ s.fs.isFile p = true := by
  obtain ⟨fs', hs, hf⟩ := prim_ok h
  by_cases hu : s.fs.isFile p = true
  · rw [if_pos hu] at hf
    injection hf with h1
    injection h1 with _ h2
    rw [hs, ← h2]
    exact ⟨rfl, hu⟩
  · rw [if_neg hu] at hf; cases hf

theorem mExistsPath_ok {p : FPath} {orc : Oracle} {s : St} {a : Bool} {s' : St}
    (h : mExistsPath p orc s = .ok a s') :
    s' = ⟨s.fs, s.ops + 1⟩ ∧ a = s.fs.pathExists p := by
  obtain ⟨fs', hs, hf⟩ := prim_ok h
  injection hf with h1
  injection h1 with h2 h3
  rw [hs, ← h3]
  exact ⟨rfl, h2.symm⟩

theorem mCopyItem_ok {p : FPath} {it : TItem} {orc : Oracle} {s : St} {a : Unit} {s' : St}
    (h : mCopyItem p it orc s = .ok a s') : s' = ⟨copyTItem p it s.fs, s.ops + 1⟩ := by
  obtain ⟨fs', hs, hf⟩ := prim_ok h
  by_cases hw : orc.failWrite p
  · rw [if_pos hw] at hf; cases hf
  · rw [if_neg hw] at hf
    injection hf with h1
    injection h1 with _ h2
    rw [hs, ← h2]

theorem mGit_ok {orc : Oracle} {s : St} {a : Unit} {s' : St}
    (h : mGit orc s = .ok a s') : s' = ⟨s.fs, s.ops + 1⟩ := by
  obtain ⟨fs', hs, hf⟩ := prim_ok h
  injection hf with h1
  injection h1 with _ h2
  rw [hs, ← h2]

theorem pure_ok {α : Type} {orc : Oracle} {s : St} {a b : α} {s' : St}
    (h : (pure a : M α) orc s = .ok b s') : s' = s ∧ b = a := by
  injection h with h1 h2
  exact ⟨h2.symm, h1.symm⟩

/-! ## Claim C2: all-or-nothing materialization -/

/-- C2: whenever the materialization steps raise an exception (at any point,
for any template, names, oracle-injected fault and starting filesystem),
the `except Exception` handler leaves a filesystem in which the target
directory no longer exists. -/
theorem claim_C2_all_or_nothing (tmpl : Template) (folder description tool : String)
    (orc : Oracle) (fs : FS) (s' : St)
    (hexc : materialize tmpl folder description tool orc ⟨fs, 0⟩ = Res.exc s') :
    ∃ fs', materializeAndCleanup tmpl folder description tool orc fs = .cleaned fs' ∧
      fs'.pathExists [folder] = false := by
  have hm : materializeAndCleanup tmpl folder description tool orc fs =
      .cleaned (if s'.fs.pathExists [folder] then s'.fs.rmtree [folder] else s'.fs) := by
    simp only [materializeAndCleanup]
    rw [hexc]
  by_cases hex : s'.fs.pathExists [folder] = true
  · refine ⟨s'.fs.rmtree [folder], ?_, rmtree_pathExists_self s'.fs [folder]⟩
    rw [hm, if_pos hex]
  · refine ⟨s'.fs, ?_, by simpa using hex⟩
    rw [hm, if_neg hex]

theorem claim_C2_witness :
    ∃ fs', materializeAndCleanup [] "mcp-x" "d" "t" cleanOracle emptyFS = .cleaned fs' ∧
      fs'.pathExists ["mcp-x"] = false :=
  claim_C2_all_or_nothing [] "mcp-x" "d" "t" cleanOracle emptyFS
    ⟨⟨[], [["mcp-x"]]⟩, 2⟩ (by decide)

/-! ## Reaching materialization from setup_service -/

theorem validate_normalize_service (a : String) :
    validate_service_name (normalize_service_name a) = true :=
  matchesClass_of_canon (canon_service a.data)

theorem validate_normalize_tool (b : String) :
    validate_tool_name (normalize_tool_name b) = true :=
  matchesClass_of_canon (canon_tool b.data)

/-- With both names given on the command line, auto-confirm set, the
environment check skipped, no pre-existing target and a working download,
`setup_service` runs the materialization phase. -/
theorem setup_service_runs_materialize (a b : String) (env : Env) (orc : Oracle)
    (tmpl : Template) (fs : FS)
    (hnc : fs.pathExists [("mcp-" ++ normalize_service_name a : String)] = false)
    (hdl : orc.downloadFails = false) :
    setup_service (some a) (some b) true true env orc tmpl fs =
      materializeAndCleanup tmpl ("mcp-" ++ normalize_service_name a)
        ("MCP " ++ pyTitle (pyReplace (normalize_service_name a) "-" " ") ++ " Server")
        (normalize_tool_name b) orc fs := by
  simp only [setup_service, validate_normalize_service, validate_normalize_tool,
    hnc, hdl, Bool.not_true, Bool.false_and, Bool.and_false, if_false, if_true,
    Bool.not_false, ite_true, ite_false]
  simp

/-! ## Claim C6: existing target directory aborts with no modification -/

/-- C6: when the target directory `mcp-{service}` already exists as the
materialization phase would begin (with the environment check skipped, both
names given, and the confirmation passed by auto-confirm, a non-interactive
stream, or an affirmative answer), `setup_service` reports the collision and
returns with the filesystem exactly as it was — nothing is created or
modified anywhere. -/
theorem claim_C6_collision_frame (a b : String) (yes : Bool) (env : Env) (orc : Oracle)
    (tmpl : Template) (fs : FS)
    (hex : fs.pathExists [("mcp-" ++ normalize_service_name a : String)] = true)
    (hconf : yes = true ∨ env.interactive = false ∨
      pyLower (pyStripWs env.confirmAnswer) = "y") :
    setup_service (some a) (some b) yes true env orc tmpl fs = .collision fs := by
  have hcond : (!yes && env.interactive
      && !(pyLower (pyStripWs env.confirmAnswer) == "y")) = false := by
    rcases hconf with h | h | h
    · simp [h]
    · simp [h]
    · simp [h]
  simp only [setup_service, validate_normalize_service, validate_normalize_tool,
    hex, hcond, Bool.not_true, if_false, if_true, Bool.not_false, ite_true, ite_false]
  simp

theorem claim_C6_witness :
    (FS.pathExists ⟨[], [["mcp-x"]]⟩ [("mcp-" ++ normalize_service_name "x" : String)]
        = true) ∧
    setup_service (some "x") (some "t") true true envNonInteractive cleanOracle
      scaffoldTemplate ⟨[], [["mcp-x"]]⟩ = .collision ⟨[], [["mcp-x"]]⟩ :=
  ⟨by decide,
   claim_C6_collision_frame "x" "t" true envNonInteractive cleanOracle scaffoldTemplate
     ⟨[], [["mcp-x"]]⟩ (by decide) (Or.inl rfl)⟩

/-! ## Claim C10: a keyboard interrupt bypasses the cleanup handler -/

/-- C10: if a `KeyboardInterrupt` arrives during materialization after the
target directory was created, the `except Exception` cleanup handler is
bypassed (no removal happens — the interrupted filesystem is returned
as-is, with the target directory still present), and `main` catches the
interrupt and exits with code 1. -/
theorem claim_C10_interrupt_keeps_partial_dir (a b : String) (env : Env) (orc : Oracle)
    (tmpl : Template) (fs : FS) (s' : St)
    (hnc : fs.pathExists [("mcp-" ++ normalize_service_name a : String)] = false)
    (hdl : orc.downloadFails = false)
    (hintr : materialize tmpl ("mcp-" ++ normalize_service_name a)
        ("MCP " ++ pyTitle (pyReplace (normalize_service_name a) "-" " ") ++ " Server")
        (normalize_tool_name b) orc ⟨fs, 0⟩ = Res.intr s')
    (hcreated : s'.fs.pathExists [("mcp-" ++ normalize_service_name a : String)] = true) :
    setup_service (some a) (some b) true true env orc tmpl fs = .intr s'.fs ∧
    main (some a) (some b) true true env orc tmpl fs = (1, s'.fs) ∧
    s'.fs.pathExists [("mcp-" ++ normalize_service_name a : String)] = true := by
  have hmc : materializeAndCleanup tmpl ("mcp-" ++ normalize_service_name a)
      ("MCP " ++ pyTitle (pyReplace (normalize_service_name a) "-" " ") ++ " Server")
      (normalize_tool_name b) orc fs = .intr s'.fs := by
    simp only [materializeAndCleanup]
    rw [hintr]
  have h1 : setup_service (some a) (some b) true true env orc tmpl fs = .intr s'.fs := by
    rw [setup_service_runs_materialize a b env orc tmpl fs hnc hdl, hmc]
  refine ⟨h1, ?_, hcreated⟩
  simp only [main, Option.isNone, Bool.or_self, Bool.and_false, if_false]
  rw [h1]
  simp

theorem claim_C10_witness :
    setup_service (some "x") (some "t") true true envNonInteractive (orcIntrAt 1) []
      emptyFS = .intr ⟨[], [["mcp-x"]]⟩ ∧
    main (some "x") (some "t") true true envNonInteractive (orcIntrAt 1) [] emptyFS
      = (1, ⟨[], [["mcp-x"]]⟩) ∧
    FS.pathExists ⟨[], [["mcp-x"]]⟩ [("mcp-" ++ normalize_service_name "x" : String)]
      = true :=
  claim_C10_interrupt_keeps_partial_dir "x" "t" envNonInteractive (orcIntrAt 1) []
    emptyFS ⟨⟨[], [["mcp-x"]]⟩, 2⟩ (by decide) rfl (by decide) (by decide)

/-! ## Claim C9: only a stripped-lowercased "y" proceeds -/

/-- C9: at the confirmation prompt (interactive stream, auto-confirm not
set), an answer whose stripped lowercased form differs from `"y"` —
including `"yes"` — cancels the run with the filesystem untouched and exit
code 0, and an answer equal to `"y"` never takes the cancellation path. -/
theorem claim_C9_confirmation (a b : String) (env : Env) (orc : Oracle) (tmpl : Template)
    (fs : FS) (hint : env.interactive = true) :
    (¬ pyLower (pyStripWs env.confirmAnswer) = "y" →
       setup_service (some a) (some b) false true env orc tmpl fs = .cancelled fs ∧
       main (some a) (some b) false true env orc tmpl fs = (0, fs)) ∧
    (pyLower (pyStripWs env.confirmAnswer) = "y" →
       ∀ fs', ¬ (setup_service (some a) (some b) false true env orc tmpl fs
         = .cancelled fs')) := by
  constructor
  · intro hne
    have hy : (pyLower (pyStripWs env.confirmAnswer) == "y") = false := by
      rwa [beq_eq_false_iff_ne]
    have h1 : setup_service (some a) (some b) false true env orc tmpl fs
        = .cancelled fs := by
      simp only [setup_service, validate_normalize_service, validate_normalize_tool,
        hint, hy, Bool.not_true, Bool.not_false, Bool.true_and, Bool.and_true,
        if_false, if_true, ite_true, ite_false]
      simp
    refine ⟨h1, ?_⟩
    simp only [main, Option.isNone, Bool.or_self, Bool.and_false, if_false]
    rw [h1]
    simp
  · intro hyq fs'
    have hy : (pyLower (pyStripWs env.confirmAnswer) == "y") = true := by
      rwa [beq_iff_eq]
    simp only [setup_service, validate_normalize_service, validate_normalize_tool,
      hint, hy, Bool.not_true, Bool.not_false, Bool.true_and, Bool.and_true,
      Bool.and_false, if_false, if_true, ite_true, ite_false]
    simp only [Bool.false_eq_true, if_false]
    by_cases hex : fs.pathExists [("mcp-" ++ normalize_service_name a : String)] = true
    · simp [hex]
    · simp only [Bool.not_eq_true] at hex
      simp only [hex, Bool.false_eq_true, if_false]
      by_cases hdl : orc.downloadFails = true
      · simp [hdl]
      · simp only [Bool.not_eq_true] at hdl
        simp only [hdl, Bool.false_eq_true, if_false]
        cases hm : materialize tmpl ("mcp-" ++ normalize_service_name a)
            ("MCP " ++ pyTitle (pyReplace (normalize_service_name a) "-" " ") ++ " Server")
            (normalize_tool_name b) orc ⟨fs, 0⟩ with
        | ok u s => simp [materializeAndCleanup, hm]
        | exc s => simp [materializeAndCleanup, hm]
        | intr s => simp [materializeAndCleanup, hm]

theorem claim_C9_witness :
    setup_service (some "x") (some "t") false true (envAnswer "yes") cleanOracle
      scaffoldTemplate emptyFS = .cancelled emptyFS ∧
    main (some "x") (some "t") false true (envAnswer "yes") cleanOracle scaffoldTemplate
      emptyFS = (0, emptyFS) :=
  (claim_C9_confirmation "x" "t" (envAnswer "yes") cleanOracle scaffoldTemplate emptyFS
    rfl).1 (by decide)

/-! ## Claim C1: the registration file after a successful materialization -/

theorem isImportLine_from (x : String) :
    isImportLine ("from . import " ++ x ++ "  # noqa: F401") = true := rfl

theorem importLines_initContent (tool : String) :
    importLines (initContent tool) = ["from . import " ++ tool ++ "  # noqa: F401"] := by
  have hA : isImportLine "\"\"\"" = false := by decide
  have hB : isImportLine "MCP Tools Package" = false := by decide
  have hC : isImportLine "" = false := by decide
  have hD : isImportLine
      "Import all your tool modules here to ensure they are registered with @oma_tool."
        = false := by decide
  have hE : isImportLine "# Import your tools here" = false := by decide
  simp only [initContent, importLines, List.filter, hA, hB, hC, hD, hE,
    isImportLine_from tool]

theorem tool_py_ne_template {tool : String} (htool : ¬ tool = "tool_template") :
    ¬ ((tool ++ ".py" : String) = "tool_template.py") := by
  intro he
  apply htool
  have hd : tool.data ++ ".py".data = "tool_template".data ++ ".py".data :=
    congrArg String.data he
  have := List.append_cancel_right hd
  exact congrArg String.mk this

/-- The common tail of the materialization after the template-file deletion
step: registration rewrite, config round-trip, README and git.  Gives the
final registration content and preservation of the absence of
`tool_template.py`. -/
theorem materialize_tail_ok (folder description tool : String) (orc : Oracle)
    (s0 s : St) (u : Unit)
    (hok : (do
        mWrite ([folder] ++ ["app", "tools", "__init__.py"]) (initContent tool)
        let cfgContent ← mRead ([folder] ++ ["app", "core", "config.py"])
        mWrite ([folder] ++ ["app", "core", "config.py"]) cfgContent
        mWrite ([folder] ++ ["README.md"]) (readmeContent folder description tool)
        mGit) orc s0 = Res.ok u s) :
    s.fs.read [folder, "app", "tools", "__init__.py"] = some (initContent tool) ∧
    (s0.fs.isFile ([folder] ++ ["app", "tools", "tool_template.py"]) = false →
      s.fs.isFile [folder, "app", "tools", "tool_template.py"] = false) := by
  obtain ⟨_, s9, h9, hok⟩ := bind_ok hok
  obtain ⟨cfgContent, s10, h10, hok⟩ := bind_ok hok
  obtain ⟨_, s11, h11, hok⟩ := bind_ok hok
  obtain ⟨_, s12, h12, hok⟩ := bind_ok hok
  have e9 := mWrite_ok h9
  have e10 := (mRead_ok h10).1
  have e11 := mWrite_ok h11
  have e12 := mWrite_ok h12
  have e13 := mGit_ok hok
  have hsfs : s.fs = s12.fs := by rw [e13]
  have h12fs : s12.fs =
      s11.fs.write ([folder] ++ ["README.md"]) (readmeContent folder description tool) := by
    rw [e12]
  have h11fs : s11.fs =
      s10.fs.write ([folder] ++ ["app", "core", "config.py"]) cfgContent := by
    rw [e11]
  have h10fs : s10.fs = s9.fs := by rw [e10]
  have h9fs : s9.fs =
      s0.fs.write ([folder] ++ ["app", "tools", "__init__.py"]) (initContent tool) := by
    rw [e9]
  have hne1 : ¬ (([folder] ++ ["app", "tools", "__init__.py"] : FPath)
      = [folder] ++ ["README.md"]) := by simp
  have hne2 : ¬ (([folder] ++ ["app", "tools", "__init__.py"] : FPath)
      = [folder] ++ ["app", "core", "config.py"]) := by simp
  constructor
  · show s.fs.read ([folder] ++ ["app", "tools", "__init__.py"]) = some (initContent tool)
    rw [hsfs, h12fs, read_write_ne _ _ hne1, h11fs, read_write_ne _ _ hne2, h10fs, h9fs,
      read_write_same]
  · intro h0
    have hne3 : ¬ (([folder] ++ ["app", "tools", "tool_template.py"] : FPath)
        = [folder] ++ ["README.md"]) := by simp
    have hne4 : ¬ (([folder] ++ ["app", "tools", "tool_template.py"] : FPath)
        = [folder] ++ ["app", "core", "config.py"]) := by simp
    have hne5 : ¬ (([folder] ++ ["app", "tools", "tool_template.py"] : FPath)
        = [folder] ++ ["app", "tools", "__init__.py"]) := by simp
    show s.fs.isFile ([folder] ++ ["app", "tools", "tool_template.py"]) = false
    rw [hsfs, h12fs, isFile_write_ne _ _ hne3, h11fs, isFile_write_ne _ _ hne4, h10fs,
      h9fs, isFile_write_ne _ _ hne5]
    exact h0

/-- C1 (amended): after every successful materialization with tool
identifier `tool` (distinct from the template module name), the tools
registration file is exactly the generated one, whose only import line
references `tool`, and no file named `tool_template.py` remains in the
target tools directory.  (The file `example_tool.py`, by contrast, is
deleted only on the fallback path; the counterexample shows it surviving a
successful run of the real scaffold.) -/
theorem claim_C1_registration (tmpl : Template) (folder description tool : String)
    (orc : Oracle) (fs : FS) (u : Unit) (s : St)
    (hok : materialize tmpl folder description tool orc ⟨fs, 0⟩ = Res.ok u s)
    (htool : ¬ tool = "tool_template") :
    s.fs.read [folder, "app", "tools", "__init__.py"] = some (initContent tool) ∧
    importLines (initContent tool) = ["from . import " ++ tool ++ "  # noqa: F401"] ∧
    s.fs.isFile [folder, "app", "tools", "tool_template.py"] = false := by
  simp only [materialize] at hok
  obtain ⟨_, s1, h1, hok⟩ := bind_ok hok
  obtain ⟨_, s2, h2, hok⟩ := bind_ok hok
  obtain ⟨content, s3, h3, hok⟩ := bind_ok hok
  obtain ⟨_, s4, h4, hok⟩ := bind_ok hok
  obtain ⟨ttThere, s5, h5, hok⟩ := bind_ok hok
  obtain ⟨tc, s6, h6, hok⟩ := bind_ok hok
  obtain ⟨_, s7, h7, hok⟩ := bind_ok hok
  by_cases htt : ttThere = true
  · rw [if_pos htt] at hok
    obtain ⟨_, s8, h8, hok⟩ := bind_ok hok
    obtain ⟨e8, _⟩ := mUnlink_ok h8
    have h8f : s8.fs.isFile ([folder] ++ ["app", "tools", "tool_template.py"])
        = false := by
      rw [e8]
      exact isFile_unlink_self s7.fs _
    obtain ⟨hread, himp⟩ := materialize_tail_ok folder description tool orc s8 s u hok
    exact ⟨hread, importLines_initContent tool, himp h8f⟩
  · have htt' : ttThere = false := by
      cases ttThere
      · rfl
      · exact absurd rfl htt
    obtain ⟨e5, hex5⟩ := mExistsPath_ok h5
    rw [htt'] at hex5
    have hnf5 : s5.fs.isFile ([folder] ++ ["app", "tools", "tool_template.py"])
        = false := by
      have hx := hex5.symm
      simp only [FS.pathExists, Bool.or_eq_false_iff] at hx
      rw [e5]
      exact hx.1
    have e6 := (mRead_ok h6).1
    have e7 := mWrite_ok h7
    have hne6 : ¬ (([folder] ++ ["app", "tools", "tool_template.py"] : FPath)
        = [folder] ++ ["app", "tools", tool ++ ".py"]) := by
      simp only [List.cons_append, List.nil_append, List.cons.injEq, not_and]
      intro _ _ _ hlast
      exact absurd hlast.symm (tool_py_ne_template htool)
    have hnf7 : s7.fs.isFile ([folder] ++ ["app", "tools", "tool_template.py"])
        = false := by
      rw [e7, isFile_write_ne _ _ hne6, e6]
      exact hnf5
    rw [if_neg htt] at hok
    by_cases hte : (tool == "example_tool") = true
    · rw [if_pos hte] at hok
      obtain ⟨_, s8, h8, hok⟩ := bind_ok hok
      obtain ⟨e8, _⟩ := pure_ok h8
      obtain ⟨hread, himp⟩ := materialize_tail_ok folder description tool orc s8 s u hok
      refine ⟨hread, importLines_initContent tool, himp ?_⟩
      rw [e8]
      exact hnf7
    · rw [if_neg hte] at hok
      obtain ⟨exThere, sE, hE1, hok⟩ := bind_ok hok
      obtain ⟨eE, _⟩ := mExistsPath_ok hE1
      by_cases hext : exThere = true
      · rw [if_pos hext] at hok
        obtain ⟨_, s8, h8, hok⟩ := bind_ok hok
        obtain ⟨e8, _⟩ := mUnlink_ok h8
        obtain ⟨hread, himp⟩ := materialize_tail_ok folder description tool orc s8 s u hok
        refine ⟨hread, importLines_initContent tool, himp ?_⟩
        have hne7 : ¬ (([folder] ++ ["app", "tools", "tool_template.py"] : FPath)
            = [folder] ++ ["app", "tools", "example_tool.py"]) := by simp
        rw [e8, isFile_unlink_ne _ hne7, eE]
        exact hnf7
      · rw [if_neg hext] at hok
        obtain ⟨_, s8, h8, hok⟩ := bind_ok hok
        obtain ⟨e8, _⟩ := pure_ok h8
        obtain ⟨hread, himp⟩ := materialize_tail_ok folder description tool orc s8 s u hok
        refine ⟨hread, importLines_initContent tool, himp ?_⟩
        rw [e8, eE]
        exact hnf7

/-- C1 fails as stated on the real scaffold: a successful materialization
with tool `doc_proc` leaves `example_tool.py` in the target tools directory
(only `tool_template.py`, the file actually used as the template, is
deleted; the `example_tool.py` deletion branch is taken only when
`tool_template.py` was absent). -/
theorem claim_C1_counterexample :
    (match setup_service (some "x") (some "doc_proc") true true envNonInteractive
        cleanOracle scaffoldTemplate emptyFS with
      | .done fs => fs.isFile ["mcp-x", "app", "tools", "example_tool.py"]
      | _ => false) = true := by decide

set_option maxRecDepth 20000 in
theorem claim_C1_witness :
    ¬ ("doc_proc" : String) = "tool_template" ∧
    (c1WitnessSt.fs.read ["mcp-x", "app", "tools", "__init__.py"]
        = some (initContent "doc_proc") ∧
     importLines (initContent "doc_proc")
        = ["from . import " ++ "doc_proc" ++ "  # noqa: F401"] ∧
     c1WitnessSt.fs.isFile ["mcp-x", "app", "tools", "tool_template.py"] = false) :=
  ⟨by decide, by
    have hm : materialize scaffoldTemplate "mcp-x" "d" "doc_proc" cleanOracle ⟨emptyFS, 0⟩
        = Res.ok () c1WitnessSt := by decide
    exact claim_C1_registration scaffoldTemplate "mcp-x" "d" "doc_proc" cleanOracle
      emptyFS () c1WitnessSt hm (by decide)⟩

/-! ## Claim C7: the write-permission probe -/

/-- C7 fails as stated: in a run where the probe file is created but its
removal raises, the check reports failure although creation succeeded, and
the probe file is left on disk — the probe neither always removes the file
nor reports based solely on creation success. -/
theorem claim_C7_counterexample :
    ¬ (((write_permission_check orcUnlinkFail emptyFS).2.isFile probePath = false) ∧
       ((write_permission_check orcUnlinkFail emptyFS).1 = true ↔
         orcUnlinkFail.failWrite probePath = false)) := by decide

/-- C7 (amended): the probe reports success iff both the creation and the
removal of the probe file succeed; on success the filesystem is restored
exactly (when no probe file pre-existed); on a creation failure nothing is
attempted or changed; and on a removal failure the probe file is left
behind while the check reports failure despite the successful creation. -/
theorem claim_C7_probe_behaviour (orc : Oracle) (fs : FS)
    (h : fs.isFile probePath = false) :
    ((write_permission_check orc fs).1 = true ↔
      (orc.failWrite probePath = false ∧ orc.failUnlinkProbe = false)) ∧
    ((write_permission_check orc fs).1 = true → (write_permission_check orc fs).2 = fs) ∧
    (orc.failWrite probePath = true → (write_permission_check orc fs).2 = fs) ∧
    (orc.failWrite probePath = false → orc.failUnlinkProbe = true →
      (write_permission_check orc fs).2.isFile probePath = true) := by
  have hfil : fs.files.filter (fun e => !(e.1 == probePath)) = fs.files := by
    rw [List.filter_eq_self]
    intro e he
    have := List.any_eq_false.mp h e he
    simp [this]
  by_cases hw : orc.failWrite probePath = true
  · simp [write_permission_check, hw]
  · have hw' : orc.failWrite probePath = false := by
      cases horc : orc.failWrite probePath
      · rfl
      · exact absurd horc hw
    by_cases hu : orc.failUnlinkProbe = true
    · simp [write_permission_check, hw', hu, h, isFile_write_same]
    · have hu' : orc.failUnlinkProbe = false := by
        cases horc : orc.failUnlinkProbe
        · rfl
        · exact absurd horc hu
      have hfil2 : (fs.write probePath [""]).unlink probePath = fs := by
        simp only [FS.write, FS.unlink, List.filter_cons, beq_self_eq_true,
          Bool.not_true, Bool.false_eq_true, if_false]
        rw [List.filter_filter]
        have hff : (fs.files.filter fun e => !(e.1 == probePath) && !(e.1 == probePath))
            = fs.files := by
          rw [List.filter_congr (fun e _ => by rw [Bool.and_self]), hfil]
        rw [hff]
      simp [write_permission_check, hw', hu', h, hfil2]

theorem claim_C7_witness :
    (emptyFS.isFile probePath = false) ∧
    (((write_permission_check cleanOracle emptyFS).1 = true ↔
       (cleanOracle.failWrite probePath = false ∧ cleanOracle.failUnlinkProbe = false)) ∧
     ((write_permission_check cleanOracle emptyFS).1 = true →
       (write_permission_check cleanOracle emptyFS).2 = emptyFS) ∧
     (cleanOracle.failWrite probePath = true →
       (write_permission_check cleanOracle emptyFS).2 = emptyFS) ∧
     (cleanOracle.failWrite probePath = false → cleanOracle.failUnlinkProbe = true →
       (write_permission_check cleanOracle emptyFS).2.isFile probePath = true)) :=
  ⟨by decide, claim_C7_probe_behaviour cleanOracle emptyFS (by decide)⟩

/-! ## Claim C8: the end-to-end scenario -/

set_option maxRecDepth 40000 in
/-- C8 fails as stated: the generated tool file `doc_proc.py` is written
from `tool_template.py`, whose text contains none of the substituted
example-tool patterns, so the substitutions are no-ops and the file still
contains the original template tool identifiers (`tool_template`,
including its own function definition) after a successful run. -/
theorem claim_C8_counterexample :
    c8Run = .done c8FS ∧
    c8FS.isFile ["mcp-document-processor", "app", "tools", "doc_proc.py"] = true ∧
    linesContain
      ((c8FS.read ["mcp-document-processor", "app", "tools", "doc_proc.py"]).getD [])
      "tool_template" = true := by
  refine ⟨by decide, by decide, by decide⟩

set_option maxRecDepth 40000 in
/-- C8 (amended): the non-interactive run with service name
`"Document Processor!"` and tool name `"Doc Proc"` succeeds and produces a
target directory `mcp-document-processor` containing a tool file
`doc_proc.py` with no occurrence of the substituted example identifiers
(`example_tool` / `ExampleTool` — though the `tool_template` identifiers of
the file it was copied from remain), a manifest with name
`mcp-document-processor` and description `MCP Document Processor Server`,
and a registration file whose single import line imports `doc_proc`. -/
theorem claim_C8_end_to_end :
    c8Run = .done c8FS ∧
    c8FS.isDir ["mcp-document-processor"] = true ∧
    c8FS.isFile ["mcp-document-processor", "app", "tools", "doc_proc.py"] = true ∧
    linesContain
      ((c8FS.read ["mcp-document-processor", "app", "tools", "doc_proc.py"]).getD [])
      "example_tool" = false ∧
    linesContain
      ((c8FS.read ["mcp-document-processor", "app", "tools", "doc_proc.py"]).getD [])
      "ExampleTool" = false ∧
    c8FS.read ["mcp-document-processor", "pyproject.toml"] = some
      ["[tool.poetry]",
       "name = \"mcp-document-processor\"",
       "version = \"0.1.0\"",
       "description = \"MCP Document Processor Server\"",
       ""] ∧
    c8FS.read ["mcp-document-processor", "app", "tools", "__init__.py"]
      = some (initContent "doc_proc") ∧
    importLines (initContent "doc_proc") = ["from . import doc_proc  # noqa: F401"] := by
  refine ⟨by decide, by decide, by decide, by decide, by decide, by decide, by decide,
    by decide⟩

/-! ## Claim C5: process exit codes -/

/-- C5 fails as stated: a materialization exception is caught and cleaned
up inside `setup_service`, which then returns normally, so the process
exits 0 (the claim says 1); and missing required input in non-interactive
mode is rejected by `parser.error`, which exits 2 (the claim says 1).
Here the empty template makes the pyproject read raise mid-materialization. -/
theorem claim_C5_counterexample :
    setup_service (some "x") (some "t") true true envNonInteractive cleanOracle [] emptyFS
      = .cleaned emptyFS ∧
    main (some "x") (some "t") true true envNonInteractive cleanOracle [] emptyFS
      = (0, emptyFS) ∧
    main none (some "t") true true envNonInteractive cleanOracle [] emptyFS
      = (2, emptyFS) := by
  refine ⟨by decide, by decide, by decide⟩

/-- C5 (amended): the exit-code map of `main`.  Missing required input in
non-interactive mode exits 2 (argparse).  Otherwise `setup_service` runs,
and the process exits 0 on success, on a declined confirmation, on a
target-directory collision, and after a cleaned-up materialization
exception; it exits with the code of an internal `sys.exit` (1 for
environment-check failure, validation failure and download failure), and 1
when an `EOFError` or `KeyboardInterrupt` propagates.  (The validation
`sys.exit(1)` path is unreachable for normalized names by claim C3.) -/
theorem claim_C5_exit_codes (sa ta : Option String) (yes skipEnv : Bool) (env : Env)
    (orc : Oracle) (tmpl : Template) (fs : FS) :
    (env.interactive = false → (sa = none ∨ ta = none) →
       main sa ta yes skipEnv env orc tmpl fs = (2, fs)) ∧
    ((env.interactive = true ∨ (¬ sa = none ∧ ¬ ta = none)) →
      ((∀ fs', setup_service sa ta yes skipEnv env orc tmpl fs = .done fs' →
          main sa ta yes skipEnv env orc tmpl fs = (0, fs')) ∧
       (∀ fs', setup_service sa ta yes skipEnv env orc tmpl fs = .cancelled fs' →
          main sa ta yes skipEnv env orc tmpl fs = (0, fs')) ∧
       (∀ fs', setup_service sa ta yes skipEnv env orc tmpl fs = .collision fs' →
          main sa ta yes skipEnv env orc tmpl fs = (0, fs')) ∧
       (∀ fs', setup_service sa ta yes skipEnv env orc tmpl fs = .cleaned fs' →
          main sa ta yes skipEnv env orc tmpl fs = (0, fs')) ∧
       (∀ code fs', setup_service sa ta yes skipEnv env orc tmpl fs = .exited code fs' →
          main sa ta yes skipEnv env orc tmpl fs = (code, fs')) ∧
       (∀ fs', setup_service sa ta yes skipEnv env orc tmpl fs = .eofErr fs' →
          main sa ta yes skipEnv env orc tmpl fs = (1, fs')) ∧
       (∀ fs', setup_service sa ta yes skipEnv env orc tmpl fs = .intr fs' →
          main sa ta yes skipEnv env orc tmpl fs = (1, fs')))) := by
  constructor
  · intro hint hnames
    rcases hnames with h | h
    · subst h
      simp [main, hint]
    · subst h
      simp [main, hint]
  · intro hpre
    have hcond : (!env.interactive && (sa.isNone || ta.isNone)) = false := by
      rcases hpre with h | ⟨h1, h2⟩
      · simp [h]
      · have hs : sa.isNone = false := by
          cases sa
          · exact absurd rfl h1
          · rfl
        have ht : ta.isNone = false := by
          cases ta
          · exact absurd rfl h2
          · rfl
        simp [hs, ht]
    refine ⟨?_, ?_, ?_, ?_, ?_, ?_, ?_⟩ <;>
      first
        | (intro fs' hset
           simp only [main, hcond, Bool.false_eq_true, if_false]
           rw [hset])
        | (intro code fs' hset
           simp only [main, hcond, Bool.false_eq_true, if_false]
           rw [hset])

theorem claim_C5_witness :
    main (some "x") (some "t") true true envNonInteractive cleanOracle [] emptyFS
      = (0, emptyFS) :=
  ((claim_C5_exit_codes (some "x") (some "t") true true envNonInteractive cleanOracle []
    emptyFS).2 (Or.inr ⟨by decide, by decide⟩)).2.2.2.1 emptyFS (by decide)

end Scaffold
